import Mathlib

/-!
Shallow embedding of the context8-docker backend core (authorization,
visibility access control, quota limiting, dual-store write orchestration,
embedding fallback, federation host policy), translated from
`src/backend/app/`.  Relational state is modelled as explicit lists of rows;
every external failure point (Elasticsearch call, database commit) is made an
explicit boolean/`Except` parameter so each code path of the orchestrator is a
total function on states.
-/

namespace Context8

/-! ## Time model

`datetime` values (UTC) are modelled as a record ordered lexicographically,
which is the order `datetime` comparison gives for aware datetimes in one
timezone. -/

structure UTCTime where
  year : Nat
  month : Nat
  day : Nat
  hour : Nat
  minute : Nat
  second : Nat
  deriving DecidableEq, Repr

/-- Lexicographic `≤` on UTC timestamps, as a Bool so row filters stay
executable. -/
def UTCTime.le (a b : UTCTime) : Bool :=
  if a.year ≠ b.year then a.year < b.year
  else if a.month ≠ b.month then a.month < b.month
  else if a.day ≠ b.day then a.day < b.day
  else if a.hour ≠ b.hour then a.hour < b.hour
  else if a.minute ≠ b.minute then a.minute < b.minute
  else a.second ≤ b.second

/-- Model of `datetime(now.year, now.month, now.day, tzinfo=utc)` from
`_enforce_api_key_limits`. -/
def dayStart (now : UTCTime) : UTCTime :=
  { year := now.year, month := now.month, day := now.day
    hour := 0, minute := 0, second := 0 }

/-- Model of `datetime(now.year, now.month, 1, tzinfo=utc)` from
`_enforce_api_key_limits`. -/
def monthStart (now : UTCTime) : UTCTime :=
  { year := now.year, month := now.month, day := 1
    hour := 0, minute := 0, second := 0 }

/-! ## Data model (`models.py`) -/

/-- Model of `visibility.VISIBILITY_PRIVATE`. -/
def VISIBILITY_PRIVATE : String := "private"

/-- Model of `visibility.VISIBILITY_TEAM`. -/
def VISIBILITY_TEAM : String := "team"

/-- Model of `visibility.VISIBILITY_VALUES`. -/
def VISIBILITY_VALUES : List String := [VISIBILITY_PRIVATE, VISIBILITY_TEAM]

/-- Model of `str.lower()` over code points (character-level, so proofs can evaluate
it; the strings involved are ASCII). -/
def pyLower (s : String) : String := ⟨s.data.map Char.toLower⟩

/-- Model of `str.strip()` with default whitespace. -/
def pyStrip (s : String) : String :=
  ⟨((s.data.dropWhile Char.isWhitespace).reverse.dropWhile Char.isWhitespace).reverse⟩

/-- Model of `str.startswith(p)`. -/
def strStartsWith (s p : String) : Bool := p.data.isPrefixOf s.data

/-- Model of `visibility.normalize_visibility`: lowercase/strip, accept only the
two-value enum, raise `ValueError` otherwise.  `none` input maps to `ok none`;
an invalid string maps to `error`. -/
def normalize_visibility (value : Option String) : Except String (Option String) :=
  match value with
  | none => .ok none
  | some v =>
    let lowered := pyStrip (pyLower v)
    if lowered ∈ VISIBILITY_VALUES then .ok (some lowered)
    else .error ("Invalid visibility: " ++ v)

/-- One row of the `solutions` table (embedding vectors are exact rationals:
every float the fallback generator produces is a dyadic rational, see
`pyUniformNeg11`). -/
structure Solution where
  id : String
  user_id : String
  api_key_id : String
  title : String
  error_message : String
  error_type : String
  context : String
  root_cause : String
  solution : String
  code_changes : Option String
  tags : List String
  conversation_language : Option String
  programming_language : Option String
  vibecoding_software : Option String
  project_path : Option String
  environment : Option String
  visibility : String
  upvotes : Int
  downvotes : Int
  created_at : UTCTime
  embedding : Option (List ℚ)
  embedding_status : String
  embedding_error : Option String
  deriving DecidableEq, Repr

/-- One row of the `solution_votes` table. -/
structure SolutionVote where
  id : String
  solution_id : String
  user_id : String
  value : Int
  deriving DecidableEq, Repr

/-- The relational store: the two tables the vote/solution operations touch. -/
structure DB where
  solutions : List Solution
  votes : List SolutionVote
  deriving Repr

/-! ## Visibility access control, relational side (`crud.py`) -/

/-- Model of `crud._access_conditions`: the list of OR-able clauses.  Each clause is
kept as an executable row predicate. -/
def _access_conditions (api_key_ids : List String) (allow_team : Bool) :
    List (Solution → Bool) :=
  (if api_key_ids.isEmpty then [] else
    [fun s => decide (s.api_key_id ∈ api_key_ids) && decide (s.visibility = VISIBILITY_PRIVATE)])
  ++ (if allow_team then [fun s => decide (s.visibility = VISIBILITY_TEAM)] else [])

/-- Model of `or_(*conditions)` over row predicates. -/
def orConditions (conds : List (Solution → Bool)) : Solution → Bool :=
  fun s => conds.any (fun c => c s)

/-- Model of `crud._visibility_condition`: `none` is the SQL `None` result (the caller
then returns zero results); `some p` is the built predicate. -/
def _visibility_condition (visibility : Option String) (api_key_ids : List String)
    (allow_team : Bool) : Option (Solution → Bool) :=
  if visibility = some VISIBILITY_TEAM then
    if allow_team then some (fun s => decide (s.visibility = VISIBILITY_TEAM)) else none
  else if visibility = some VISIBILITY_PRIVATE then
    if api_key_ids.isEmpty then none
    else some (fun s =>
      decide (s.visibility = VISIBILITY_PRIVATE) && decide (s.api_key_id ∈ api_key_ids))
  else
    let conds := _access_conditions api_key_ids allow_team
    if conds.isEmpty then none else some (orConditions conds)

/-- Model of `created_at` descending comparator used by `order_by(created_at.desc())`. -/
def createdDesc (a b : Solution) : Bool := UTCTime.le b.created_at a.created_at

/-- Model of `crud.list_solutions`: total count plus one page ordered by creation time
descending. -/
def list_solutions (db : DB) (api_key_ids : List String) (allow_team : Bool)
    (limit : Nat := 25) (offset : Nat := 0) (visibility : Option String := none) :
    Nat × List Solution :=
  match _visibility_condition visibility api_key_ids allow_team with
  | none => (0, [])
  | some cond =>
    let rows := db.solutions.filter cond
    (rows.length, ((rows.mergeSort createdDesc).drop offset).take limit)

/-- Model of `crud.count_accessible_solutions`. -/
def count_accessible_solutions (db : DB) (api_key_ids : List String)
    (allow_team : Bool) (visibility : Option String := none) : Nat :=
  match _visibility_condition visibility api_key_ids allow_team with
  | none => 0
  | some cond => (db.solutions.filter cond).length

/-- Model of `crud.search_solutions`: the keyword match is kept abstract as a row
predicate `matchesQuery` (ILIKE over several columns); the access condition is
what the claims are about. -/
def search_solutions (db : DB) (matchesQuery : Solution → Bool)
    (api_key_ids : List String) (allow_team : Bool)
    (limit : Nat := 25) (offset : Nat := 0) (visibility : Option String := none) :
    Nat × List Solution :=
  match _visibility_condition visibility api_key_ids allow_team with
  | none => (0, [])
  | some cond =>
    let rows := db.solutions.filter (fun s => cond s && matchesQuery s)
    (rows.length, ((rows.mergeSort createdDesc).drop offset).take limit)

/-- Model of `crud.get_solution`: fetch by id under the access conditions. -/
def get_solution (db : DB) (solution_id : String) (api_key_ids : List String)
    (allow_team : Bool) : Option Solution :=
  let conds := _access_conditions api_key_ids allow_team
  if conds.isEmpty then none
  else db.solutions.find? (fun s => decide (s.id = solution_id) && orConditions conds s)

/-! ## Visibility access control, index side (`es.py`) -/

/-- The slice of an ES query filter that `_build_access_filter` produces.
The source only ever combines exactly two clauses in a `bool`, so `must` and
`should` (the latter with `minimum_should_match: 1`) are binary here. -/
inductive EsFilter where
  | matchAll : EsFilter
  | term : String → String → EsFilter
  | terms : String → List String → EsFilter
  | must : EsFilter → EsFilter → EsFilter
  | should : EsFilter → EsFilter → EsFilter
  deriving DecidableEq, Repr

/-- Index document (`es_docs.solution_to_es_doc` output).  `embedding = none`
models the field being absent from the JSON object. -/
structure EsDoc where
  id : String
  user_id : String
  api_key_id : String
  title : String
  error_message : String
  error_type : String
  context : String
  root_cause : String
  solution : String
  code_changes : Option String
  tags : List String
  conversation_language : Option String
  programming_language : Option String
  vibecoding_software : Option String
  project_path : Option String
  environment : Option String
  visibility : String
  upvotes : Int
  downvotes : Int
  created_at : UTCTime
  embedding : Option (List ℚ)
  deriving DecidableEq, Repr

/-- Field lookup used by term/terms clauses: the two fields access filters
mention. -/
def EsDoc.field (d : EsDoc) (name : String) : String :=
  if name = "visibility" then d.visibility
  else if name = "api_key_id" then d.api_key_id
  else ""

/-- Elasticsearch filter-context semantics for the clause shapes above
(`bool.should` carries `minimum_should_match: 1`). -/
def esMatches : EsFilter → EsDoc → Bool
  | .matchAll, _ => true
  | .term f v, d => decide (d.field f = v)
  | .terms f vs, d => vs.any (fun v => decide (d.field f = v))
  | .must c₁ c₂, d => esMatches c₁ d && esMatches c₂ d
  | .should c₁ c₂, d => esMatches c₁ d || esMatches c₂ d

/-- Model of `es._build_access_filter`, clause for clause. -/
def _build_access_filter (api_key_ids : List String) (allow_team : Bool)
    (allow_admin : Bool) (visibility : Option String := none) : EsFilter :=
  if allow_admin then
    if visibility = some VISIBILITY_TEAM then .term "visibility" VISIBILITY_TEAM
    else if visibility = some VISIBILITY_PRIVATE then .term "visibility" VISIBILITY_PRIVATE
    else .matchAll
  else if visibility = some VISIBILITY_TEAM then
    .term "visibility" VISIBILITY_TEAM
  else if visibility = some VISIBILITY_PRIVATE then
    .must (.term "visibility" VISIBILITY_PRIVATE) (.terms "api_key_id" api_key_ids)
  else if allow_team && !api_key_ids.isEmpty then
    .should (.term "visibility" VISIBILITY_TEAM)
      (.must (.term "visibility" VISIBILITY_PRIVATE) (.terms "api_key_id" api_key_ids))
  else if allow_team && api_key_ids.isEmpty then
    .term "visibility" VISIBILITY_TEAM
  else
    .must (.term "visibility" VISIBILITY_PRIVATE) (.terms "api_key_id" api_key_ids)

/-! ## Vote mutations (`crud.py`) -/

/-- The SQL `UPDATE solutions ... WHERE id = s.id`: every row whose id matches
is replaced (ids are the primary key, so at most one row in a well-formed
table). -/
def DB.setSolution (db : DB) (s : Solution) : DB :=
  { db with solutions := db.solutions.map (fun t => if t.id = s.id then s else t) }

/-- Model of `SELECT ... WHERE solution_id = sid AND user_id = uid` on the vote table
(unique on that pair, so `find?` is `scalar_one_or_none`). -/
def findVote (votes : List SolutionVote) (sid uid : String) : Option SolutionVote :=
  votes.find? (fun v => decide (v.solution_id = sid) && decide (v.user_id = uid))

/-- Model of `crud.set_solution_vote`.  `new_vote_id` stands for the generated
`uuid4().hex`; the returned `Int` is the function's `my_vote` result.  The
aggregates are adjusted incrementally from the stored `sol.upvotes` /
`sol.downvotes`, exactly as in the source. -/
def set_solution_vote (db : DB) (sol : Solution) (user_id : String) (value : Int)
    (new_vote_id : String) : Except String (DB × Int) :=
  if ¬(value = -1 ∨ value = 1) then .error "vote value must be -1 or 1"
  else if sol.user_id = user_id then .error "cannot vote on your own solution"
  else
    match findVote db.votes sol.id user_id with
    | none =>
      let upvotes := sol.upvotes + (if value = 1 then 1 else 0)
      let downvotes := sol.downvotes + (if value = 1 then 0 else 1)
      let sol' := { sol with upvotes := upvotes, downvotes := downvotes }
      let newVote : SolutionVote :=
        { id := new_vote_id, solution_id := sol.id, user_id := user_id, value := value }
      .ok ({ solutions := (db.setSolution sol').solutions, votes := newVote :: db.votes }, value)
    | some existing =>
      if existing.value = value then .ok (db, existing.value)
      else
        let upvotes := sol.upvotes - (if existing.value = 1 then 1 else 0)
          + (if value = 1 then 1 else 0)
        let downvotes := sol.downvotes - (if existing.value = 1 then 0 else 1)
          + (if value = 1 then 0 else 1)
        let sol' := { sol with upvotes := upvotes, downvotes := downvotes }
        let votes' := db.votes.map (fun v =>
          if v.id = existing.id then { v with value := value } else v)
        .ok ({ solutions := (db.setSolution sol').solutions, votes := votes' }, value)

/-- Model of `crud.clear_solution_vote` (its Python return value is always `None`; the
state is what matters). -/
def clear_solution_vote (db : DB) (sol : Solution) (user_id : String) : DB :=
  match findVote db.votes sol.id user_id with
  | none => db
  | some existing =>
    let upvotes := sol.upvotes - (if existing.value = 1 then 1 else 0)
    let downvotes := sol.downvotes - (if existing.value = 1 then 0 else 1)
    let sol' := { sol with upvotes := upvotes, downvotes := downvotes }
    let votes' := db.votes.filter (fun v => decide (v.id ≠ existing.id))
    { solutions := (db.setSolution sol').solutions, votes := votes' }

/-- Model of `crud.bump_upvotes`: `UPDATE ... SET upvotes = upvotes + 1` on every
accessible listed solution; no vote row is written.  Returns the new table
plus the rowcount. -/
def bump_upvotes (db : DB) (solution_ids api_key_ids : List String)
    (allow_team : Bool) : DB × Nat :=
  if solution_ids.isEmpty then (db, 0)
  else
    let conds := _access_conditions api_key_ids allow_team
    if conds.isEmpty then (db, 0)
    else
      let p := fun s => decide (s.id ∈ solution_ids) && orConditions conds s
      ({ db with solutions := db.solutions.map (fun s =>
          if p s then { s with upvotes := s.upvotes + 1 } else s) },
        (db.solutions.filter p).length)

/-- Number of `SolutionVote` rows with value +1 referencing `sid`. -/
def upCount (votes : List SolutionVote) (sid : String) : Nat :=
  votes.countP (fun v => decide (v.solution_id = sid) && decide (v.value = 1))

/-- Number of `SolutionVote` rows with value −1 referencing `sid`. -/
def downCount (votes : List SolutionVote) (sid : String) : Nat :=
  votes.countP (fun v => decide (v.solution_id = sid) && decide (v.value = -1))

/-- The spec's aggregate invariant: every stored aggregate equals the
corresponding count over the vote table. -/
def voteInvariant (db : DB) : Prop :=
  ∀ s ∈ db.solutions,
    s.upvotes = (upCount db.votes s.id : Int) ∧
    s.downvotes = (downCount db.votes s.id : Int)

instance (db : DB) : Decidable (voteInvariant db) := by
  unfold voteInvariant; infer_instance

/-- First stored row with a given id, with its aggregates. -/
def getAggregates (db : DB) (sid : String) : Option (Int × Int) :=
  (db.solutions.find? (fun s => decide (s.id = sid))).map (fun s => (s.upvotes, s.downvotes))

/-- The vote endpoints re-fetch the solution row before mutating
(`get_solution` then `set_solution_vote`); this is that composition with the
visibility conditions already satisfied (they do not affect the row data). -/
def castVote (db : DB) (sid uid : String) (value : Int) (new_vote_id : String) :
    Except String DB :=
  match db.solutions.find? (fun s => decide (s.id = sid)) with
  | none => .error "Not found"
  | some sol => (set_solution_vote db sol uid value new_vote_id).map (·.1)

/-- Re-fetch then `clear_solution_vote`, as the DELETE vote endpoint does. -/
def clearVote (db : DB) (sid uid : String) : DB :=
  match db.solutions.find? (fun s => decide (s.id = sid)) with
  | none => db
  | some sol => clear_solution_vote db sol uid

/-! ## Index documents and the index store (`es_docs.py`, `es.py`) -/

/-- Model of `es_docs.solution_to_es_doc`: the document mirrors the row; the
`embedding` key is set only when an embedding was passed (`none` = key
absent). -/
def solution_to_es_doc (s : Solution) (embedding : Option (List ℚ) := none) : EsDoc :=
  { id := s.id
    user_id := s.user_id
    api_key_id := s.api_key_id
    title := s.title
    error_message := s.error_message
    error_type := s.error_type
    context := s.context
    root_cause := s.root_cause
    solution := s.solution
    code_changes := s.code_changes
    tags := s.tags
    conversation_language := s.conversation_language
    programming_language := s.programming_language
    vibecoding_software := s.vibecoding_software
    project_path := s.project_path
    environment := s.environment
    visibility := s.visibility
    upvotes := s.upvotes
    downvotes := s.downvotes
    created_at := s.created_at
    embedding := embedding }

/-- The index store: documents keyed by document id. -/
abbrev EsIndex : Type := List (String × EsDoc)

/-- Model of `PUT _doc/id` — create-or-replace. -/
def indexPut (es : EsIndex) (doc_id : String) (doc : EsDoc) : EsIndex :=
  if (es.find? (fun kv => decide (kv.1 = doc_id))).isSome then
    es.map (fun kv => if kv.1 = doc_id then (doc_id, doc) else kv)
  else (doc_id, doc) :: es

/-- Model of `DELETE _doc/id` — idempotent (404 treated as success in
`delete_solution_es`). -/
def indexDelete (es : EsIndex) (doc_id : String) : EsIndex :=
  es.filter (fun kv => decide (kv.1 ≠ doc_id))

/-- Document lookup by id. -/
def indexGet (es : EsIndex) (doc_id : String) : Option EsDoc :=
  (es.find? (fun kv => decide (kv.1 = doc_id))).map (·.2)

/-- Model of `update_solution_es(id, visibility=v)`: partial-field update of the
stored document (the flows below only call it for documents that exist, so
the `doc_as_upsert` corner of creating a partial document is not needed). -/
def updateVisibilityEs (es : EsIndex) (doc_id : String) (v : String) : EsIndex :=
  es.map (fun kv => if kv.1 = doc_id then (kv.1, { kv.2 with visibility := v }) else kv)

/-- Model of `es.fetch_solution_es`: a size-1 query whose `bool.filter` is the access
filter plus `term id = solution_id`; returns `hits[0]._source` or `None`. -/
def fetch_solution_es (es : EsIndex) (solution_id : String) (api_key_ids : List String)
    (allow_team allow_admin : Bool) (visibility : Option String := none) : Option EsDoc :=
  let access_filter := _build_access_filter api_key_ids allow_team allow_admin visibility
  (es.find? (fun kv =>
    esMatches access_filter kv.2 && decide (kv.2.id = solution_id))).map (·.2)

/-- Model of `es.search_solutions_es`, hit set only: the documents admitted by the
mandatory access filter and the keyword clause (`matchesQuery` abstracts the
`multi_match` relevance clause; scoring and pagination are not modelled). -/
def search_solutions_es_hits (es : EsIndex) (matchesQuery : EsDoc → Bool)
    (api_key_ids : List String) (allow_team allow_admin : Bool)
    (visibility : Option String := none) : List EsDoc :=
  let access_filter := _build_access_filter api_key_ids allow_team allow_admin visibility
  (es.filter (fun kv => esMatches access_filter kv.2 && matchesQuery kv.2)).map (·.2)

/-- Combined system state: the relational store and the search index. -/
structure SysState where
  db : DB
  es : EsIndex

/-! ## Key scopes and the quota limiter (`api_keys.py`, `main.py`) -/

/-- Model of `api_keys.KeyScope`. -/
structure KeyScope where
  key_id : String
  api_key_id : String
  user_id : String
  is_sub : Bool
  parent_id : Option String
  can_read : Bool
  can_write : Bool
  daily_limit : Option Nat
  monthly_limit : Option Nat
  deriving DecidableEq, Repr

/-- Model of `main._count_solutions_since`: rows owned by the credential with
`created_at >= since`. -/
def _count_solutions_since (db : DB) (api_key_id : String) (since : UTCTime) : Nat :=
  (db.solutions.filter (fun s =>
    decide (s.api_key_id = api_key_id) && UTCTime.le since s.created_at)).length

/-- 429-class quota rejections. -/
inductive QuotaError where
  | daily (limit : Nat)
  | monthly (limit : Nat)
  deriving DecidableEq, Repr

/-- Model of `main._enforce_api_key_limits`: a no-op unless the scope carries a limit;
otherwise (under the credential-keyed advisory lock, which serializes the
check and is invisible to this single-request model) the daily count is
checked first, then the monthly one. -/
def _enforce_api_key_limits (db : DB) (key_scope : KeyScope) (now : UTCTime) :
    Except QuotaError Unit :=
  if key_scope.daily_limit = none ∧ key_scope.monthly_limit = none then .ok ()
  else
    match key_scope.daily_limit with
    | some d =>
      if _count_solutions_since db key_scope.api_key_id (dayStart now) ≥ d then
        .error (.daily d)
      else
        match key_scope.monthly_limit with
        | some m =>
          if _count_solutions_since db key_scope.api_key_id (monthStart now) ≥ m then
            .error (.monthly m)
          else .ok ()
        | none => .ok ()
    | none =>
      match key_scope.monthly_limit with
      | some m =>
        if _count_solutions_since db key_scope.api_key_id (monthStart now) ≥ m then
          .error (.monthly m)
        else .ok ()
      | none => .ok ()

/-! ## Dual-store write orchestrator (`main.py`) -/

/-- Model of `schemas.SolutionCreate` (the fields `crud.create_solution` reads). -/
structure SolutionCreate where
  title : String
  errorMessage : String
  errorType : String
  context : String
  rootCause : String
  solution : String
  codeChanges : Option String
  tags : List String
  conversationLanguage : Option String
  programmingLanguage : Option String
  vibecodingSoftware : Option String
  projectPath : Option String
  environment : Option String
  embedding : Option (List ℚ)
  visibility : Option String
  deriving DecidableEq, Repr

/-- Model of `crud.create_solution`: the new ledger row (`new_id` stands for the
generated `uuid4().hex`; `upvotes`/`downvotes` take their server defaults). -/
def create_solution_row (data : SolutionCreate) (api_key_id user_id : String)
    (visibility : String) (new_id : String) (now : UTCTime) : Solution :=
  { id := new_id
    user_id := user_id
    api_key_id := api_key_id
    title := data.title
    error_message := data.errorMessage
    error_type := data.errorType
    context := data.context
    root_cause := data.rootCause
    solution := data.solution
    code_changes := data.codeChanges
    tags := data.tags
    conversation_language := data.conversationLanguage
    programming_language := data.programmingLanguage
    vibecoding_software := data.vibecodingSoftware
    project_path := data.projectPath
    environment := data.environment
    visibility := visibility
    upvotes := 0
    downvotes := 0
    created_at := now
    embedding := data.embedding
    embedding_status := "pending"
    embedding_error := none }

/-- Failure classes of the create endpoint. -/
inductive CreateError where
  | invalidVisibility (msg : String)   -- 400
  | quota (e : QuotaError)             -- 429
  | esIndexFailed                      -- 502 upstream failure
  deriving DecidableEq, Repr

/-- Model of `main.save_solution` (post-authentication): visibility validation, quota
enforcement, ledger insert, inline embedding phase, then the index write with
its best-effort compensating ledger delete.  `embed_outcome` is the awaited
result of the inline `embed_text` call (a timeout surfaces as `.error`);
`es_index_ok` and `db_compensate_ok` inject the two failure points. -/
def save_solution (st : SysState) (payload : SolutionCreate) (key_scope : KeyScope)
    (user_id : String) (now : UTCTime) (new_id : String) (knn_enabled : Bool)
    (embed_outcome : Except String (List ℚ)) (es_index_ok db_compensate_ok : Bool) :
    Except CreateError Solution × SysState :=
  match normalize_visibility payload.visibility with
  | .error e => (.error (.invalidVisibility e), st)
  | .ok nv =>
    let visibility := nv.getD VISIBILITY_PRIVATE
    match _enforce_api_key_limits st.db key_scope now with
    | .error qe => (.error (.quota qe), st)
    | .ok _ =>
      let sol0 := create_solution_row payload key_scope.api_key_id user_id
        visibility new_id now
      let solEmb :=
        if knn_enabled then
          match embed_outcome with
          | .ok vec =>
            ({ sol0 with embedding_status := "done", embedding_error := none }, some vec)
          | .error e =>
            ({ sol0 with embedding_status := "failed", embedding_error := some e },
              (none : Option (List ℚ)))
        else ({ sol0 with embedding_status := "skipped", embedding_error := none },
          (none : Option (List ℚ)))
      let sol1 := solEmb.1
      let dbWithRow : DB := { st.db with solutions := st.db.solutions ++ [sol1] }
      -- `sol.id` below is the generated primary key `new_id`
      if es_index_ok then
        (.ok sol1,
          { db := dbWithRow, es := indexPut st.es new_id (solution_to_es_doc sol1 solEmb.2) })
      else if db_compensate_ok then
        (.error .esIndexFailed,
          { db := { dbWithRow with
              solutions := dbWithRow.solutions.filter (fun s => decide (s.id ≠ new_id)) }
            es := st.es })
      else
        (.error .esIndexFailed, { db := dbWithRow, es := st.es })

/-- Outcomes of the delete endpoint, separating the two compensation
reports the source distinguishes in its 500 detail strings. -/
inductive DeleteResult where
  | deleted
  | notFound
  | esDeleteFailed               -- 502
  | dbFailedRollbackRestored     -- 500 "... ES rollback restored"
  | dbFailedRollbackFailed       -- 500 "... ES rollback also failed"
  deriving DecidableEq, Repr

/-- Model of `main.delete_user_solution`: index delete first, then the ledger row and
its votes in one transaction; on ledger failure the document is re-indexed
from the row loaded before deletion, and the result says whether that
restoration worked.  `es_delete_ok`, `db_delete_ok`, `es_reindex_ok` inject
the failure points. -/
def delete_user_solution (st : SysState) (solution_id : String)
    (api_key_ids : List String) (allow_admin : Bool)
    (es_delete_ok db_delete_ok es_reindex_ok : Bool) : DeleteResult × SysState :=
  if api_key_ids.isEmpty && !allow_admin then (.notFound, st)
  else
    let found :=
      if allow_admin then st.db.solutions.find? (fun s => decide (s.id = solution_id))
      else st.db.solutions.find? (fun s =>
        decide (s.id = solution_id) && decide (s.api_key_id ∈ api_key_ids))
    match found with
    | none => (.notFound, st)
    | some sol =>
      if !es_delete_ok then (.esDeleteFailed, st)
      else
        let es1 := indexDelete st.es solution_id
        if db_delete_ok then
          (.deleted,
            { db := { solutions := st.db.solutions.filter (fun s => decide (s.id ≠ sol.id))
                      votes := st.db.votes.filter (fun v => decide (v.solution_id ≠ sol.id)) }
              es := es1 })
        else if es_reindex_ok then
          (.dbFailedRollbackRestored,
            { db := st.db, es := indexPut es1 sol.id (solution_to_es_doc sol) })
        else
          (.dbFailedRollbackFailed, { db := st.db, es := es1 })

/-- Outcomes of the visibility endpoint. -/
inductive VisibilityResult where
  | ok (visibility : String)
  | invalidVisibility            -- 400
  | notFound                     -- 404
  | esUpdateFailed               -- 502
  | dbFailedRollbackRestored     -- 500 "... ES rollback restored"
  | dbFailedRollbackFailed       -- 500 "... ES rollback also failed"
  deriving DecidableEq, Repr

/-- Model of `main.set_solution_visibility`: validation, owner lookup, the no-op
short-circuit, then index-before-ledger with compensation.  `es_update_ok`,
`db_commit_ok`, `es_rollback_ok` inject the failure points. -/
def set_solution_visibility (st : SysState) (solution_id : String)
    (requested : Option String) (api_key_ids : List String) (allow_admin : Bool)
    (es_update_ok db_commit_ok es_rollback_ok : Bool) :
    VisibilityResult × SysState :=
  match normalize_visibility requested with
  | .error _ => (.invalidVisibility, st)
  | .ok nv =>
    let visibility := nv.getD VISIBILITY_PRIVATE
    if api_key_ids.isEmpty && !allow_admin then (.notFound, st)
    else
      let found :=
        if allow_admin then st.db.solutions.find? (fun s => decide (s.id = solution_id))
        else st.db.solutions.find? (fun s =>
          decide (s.id = solution_id) && decide (s.api_key_id ∈ api_key_ids))
      match found with
      | none => (.notFound, st)
      | some sol =>
        if sol.visibility = visibility then (.ok sol.visibility, st)
        else if !es_update_ok then (.esUpdateFailed, st)
        else
          let es1 := updateVisibilityEs st.es sol.id visibility
          if db_commit_ok then
            (.ok visibility,
              { db := DB.setSolution st.db { sol with visibility := visibility }, es := es1 })
          else if es_rollback_ok then
            (.dbFailedRollbackRestored,
              { db := st.db, es := updateVisibilityEs es1 sol.id sol.visibility })
          else
            (.dbFailedRollbackFailed, { db := st.db, es := es1 })

/-! ## Federation host policy (`remote.py`) -/

/-- Python truthiness of an optional string (`None` and `""` are falsy). -/
def strTruthy : Option String → Bool
  | none => false
  | some s => !s.isEmpty

/-- Python `a or b` on optional strings. -/
def pyOr (a b : Option String) : Option String := if strTruthy a then a else b

/-- The module-level remote configuration (environment variables). -/
structure RemoteEnv where
  base : Option String             -- REMOTE_CONTEXT8_BASE
  api_key : Option String          -- REMOTE_CONTEXT8_API_KEY
  allow_override : Bool            -- REMOTE_CONTEXT8_ALLOW_OVERRIDE
  allowed_hosts : List String      -- REMOTE_CONTEXT8_ALLOWED_HOSTS (lowered)
  deriving Repr

/-- Model of `remote._normalize_base` (`value.rstrip("/")`). -/
def _normalize_base : Option String → Option String
  | none => none
  | some s =>
    if s.isEmpty then none
    else some ⟨(s.data.reverse.dropWhile (fun c => c = '/')).reverse⟩

/-- Model of `urlparse(base).hostname` (lowercased), for bases that passed the scheme
check: take the authority, drop userinfo and port, unwrap IPv6 brackets. -/
def _host_from_base (base : String) : Option String :=
  let rest :=
    if strStartsWith base "http://" then base.data.drop 7
    else if strStartsWith base "https://" then base.data.drop 8
    else []
  let authority := rest.takeWhile (fun c => c ≠ '/' && c ≠ '?' && c ≠ '#')
  let hostport := (authority.reverse.takeWhile (fun c => c ≠ '@')).reverse
  let host :=
    if hostport.headD ' ' = '[' then (hostport.drop 1).takeWhile (fun c => c ≠ ']')
    else hostport.takeWhile (fun c => c ≠ ':')
  if host.isEmpty then none else some ⟨host.map Char.toLower⟩

/-- Model of `remote._is_local_host`. -/
def _is_local_host (hostname : String) : Bool :=
  hostname = "localhost" || hostname = "127.0.0.1" || hostname = "::1"

/-- Failure classes of `resolve_remote_config`. -/
inductive RemoteError where
  | hostNotAllowed       -- 403, allow-list miss
  | overrideNotLocal     -- 403, override limited to localhost
  | baseNotConfigured    -- 400
  | keyNotConfigured     -- 401
  | badScheme            -- 400
  | badHost              -- 400
  deriving DecidableEq, Repr

/-- Model of `remote._validate_remote_host`. -/
def _validate_remote_host (env : RemoteEnv) (base_host : String)
    (override_active : Bool) : Except RemoteError Unit :=
  if !env.allowed_hosts.isEmpty then
    if base_host ∈ env.allowed_hosts then .ok () else .error .hostNotAllowed
  else if override_active && !_is_local_host base_host then .error .overrideNotLocal
  else .ok ()

/-- The `base = _normalize_base(override_base if override_active else None)
or _normalize_base(REMOTE_CONTEXT8_BASE)` line. -/
def _resolve_base (env : RemoteEnv) (override_base : Option String) : Option String :=
  let override_active := env.allow_override && strTruthy override_base
  pyOr (_normalize_base (if override_active then override_base else none))
    (_normalize_base env.base)

/-- The `api_key = (override_key if REMOTE_CONTEXT8_ALLOW_OVERRIDE else None)
or REMOTE_CONTEXT8_API_KEY` line. -/
def _resolve_key (env : RemoteEnv) (override_key : Option String) : Option String :=
  pyOr (if env.allow_override then override_key else none) env.api_key

/-- Model of `remote.resolve_remote_config`. -/
def resolve_remote_config (env : RemoteEnv) (override_base override_key : Option String) :
    Except RemoteError (String × String) :=
  let override_active := env.allow_override && strTruthy override_base
  let base := _resolve_base env override_base
  let api_key := _resolve_key env override_key
  if !strTruthy base then .error .baseNotConfigured
  else if !strTruthy api_key then .error .keyNotConfigured
  else
    let b := base.getD ""
    let k := api_key.getD ""
    if !(strStartsWith b "http://" || strStartsWith b "https://") then .error .badScheme
    else
      match _host_from_base b with
      | none => .error .badHost
      | some base_host =>
        match _validate_remote_host env base_host override_active with
        | .error e => .error e
        | .ok _ => .ok (b, k)

/-! ## Sub-key permissions (`api_keys.py`) -/

/-- A `sub_api_keys` row (the columns the permission flows touch). -/
structure SubApiKeyRow where
  id : String
  parent_api_key_id : String
  user_id : String
  name : String
  revoked : Bool
  can_read : Bool
  can_write : Bool
  daily_limit : Option Nat
  monthly_limit : Option Nat
  deriving DecidableEq, Repr

/-- An `api_keys` row (what the sub-key flows read of it). -/
structure ApiKeyRow where
  id : String
  user_id : String
  revoked : Bool
  daily_limit : Option Nat
  monthly_limit : Option Nat
  deriving DecidableEq, Repr

/-- Model of `api_keys._normalize_permissions`: `None` defaults to `True`; write
implies read; both-off is a 400. -/
def _normalize_permissions (can_read can_write : Option Bool) :
    Except String (Bool × Bool) :=
  let read := can_read.getD true
  let write := can_write.getD true
  let read' := if write && !read then true else read
  if !read' && !write then .error "At least one permission must be enabled"
  else .ok (read', write)

/-- Model of `SubApiKeyCreate` payload. -/
structure SubApiKeyCreate where
  name : String
  canRead : Option Bool
  canWrite : Option Bool
  dailyLimit : Option Nat
  monthlyLimit : Option Nat
  deriving DecidableEq, Repr

/-- Model of `api_keys.create_sub_api_key` (post-admin-auth): parent lookup outcome is
passed in; `sub_id` stands for the generated id.  An `error` result means a
4xx response with no row written. -/
def create_sub_api_key (parent : Option ApiKeyRow) (payload : SubApiKeyCreate)
    (admin_user_id sub_id : String) : Except String SubApiKeyRow :=
  if (pyStrip payload.name).isEmpty then .error "name is required"
  else
    match parent with
    | none => .error "Parent API key not found"
    | some p =>
      if p.revoked then .error "Parent API key not found"
      else
        match _normalize_permissions payload.canRead payload.canWrite with
        | .error e => .error e
        | .ok rw =>
          .ok { id := sub_id
                parent_api_key_id := p.id
                user_id := admin_user_id
                name := pyStrip payload.name
                revoked := false
                can_read := rw.1
                can_write := rw.2
                daily_limit := payload.dailyLimit
                monthly_limit := payload.monthlyLimit }

/-- Model of `SubApiKeyUpdate` payload: `none` models a field absent from
`model_fields_set` (the source treats an explicitly-null permission the same
as an absent one); the limit fields carry a separate set flag because
explicit `null` clears them. -/
structure SubApiKeyUpdate where
  name : Option String
  canRead : Option Bool
  canWrite : Option Bool
  dailySet : Bool
  dailyLimit : Option Nat
  monthlySet : Bool
  monthlyLimit : Option Nat
  deriving DecidableEq, Repr

/-- The name-update block of `api_keys.update_sub_api_key`. -/
def _update_name (item : SubApiKeyRow) (name : Option String) :
    Except String SubApiKeyRow :=
  match name with
  | some n =>
    if (pyStrip n).isEmpty then .error "name is required"
    else .ok { item with name := pyStrip n }
  | none => .ok item

/-- The permission-update block of `api_keys.update_sub_api_key`: present
fields are merged with the stored flags and re-normalized. -/
def _update_perms (item1 : SubApiKeyRow) (canRead canWrite : Option Bool) :
    Except String SubApiKeyRow :=
  if canRead.isSome || canWrite.isSome then
    match _normalize_permissions (some (canRead.getD item1.can_read))
        (some (canWrite.getD item1.can_write)) with
    | .error e => .error e
    | .ok rw => .ok { item1 with can_read := rw.1, can_write := rw.2 }
  else .ok item1

/-- Model of `api_keys.update_sub_api_key` (post-lookup): an `error` result means a
400 with nothing committed (the session is discarded without commit). -/
def update_sub_api_key (item : SubApiKeyRow) (payload : SubApiKeyUpdate) :
    Except String SubApiKeyRow :=
  match _update_name item payload.name with
  | .error e => .error e
  | .ok item1 =>
    match _update_perms item1 payload.canRead payload.canWrite with
    | .error e => .error e
    | .ok item2 =>
      let item3 := if payload.dailySet then { item2 with daily_limit := payload.dailyLimit }
        else item2
      .ok (if payload.monthlySet then { item3 with monthly_limit := payload.monthlyLimit }
        else item3)

/-- The permission invariant of the claim: write implies read, and not both
flags are off. -/
def permInvariant (r w : Bool) : Prop := (w = true → r = true) ∧ (r || w) = true

/-! ## Embedding pipeline (`embeddings.py`)

The fallback generator is modelled bit-for-bit: SHA-256 of the UTF-8 bytes of
the normalized string, the first 16 hex digits as the seed of CPython's
Mersenne Twister, and `uniform(-1.0, 1.0)` draws.  Every value that pipeline
produces is a dyadic rational that IEEE-754 doubles represent exactly
(`-1 + 2*(k/2^53)` with `k < 2^53`), so `ℚ` carries the vectors without
loss. -/

/-- 32-bit truncation. -/
def w32 (n : Nat) : Nat := n % 2 ^ 32

/-- 32-bit wrapping subtraction. -/
def sub32 (a b : Nat) : Nat := (a + 2 ^ 32 - b % 2 ^ 32) % 2 ^ 32

namespace SHA256

def rotr (n x : Nat) : Nat := w32 ((x >>> n) ||| (x <<< (32 - n)))

def bsig0 (x : Nat) : Nat := rotr 2 x ^^^ rotr 13 x ^^^ rotr 22 x

def bsig1 (x : Nat) : Nat := rotr 6 x ^^^ rotr 11 x ^^^ rotr 25 x

def ssig0 (x : Nat) : Nat := rotr 7 x ^^^ rotr 18 x ^^^ (x >>> 3)

def ssig1 (x : Nat) : Nat := rotr 17 x ^^^ rotr 19 x ^^^ (x >>> 10)

def K : List Nat :=
  [1116352408, 1899447441, 3049323471, 3921009573, 961987163,
   1508970993, 2453635748, 2870763221, 3624381080, 310598401,
   607225278, 1426881987, 1925078388, 2162078206, 2614888103,
   3248222580, 3835390401, 4022224774, 264347078, 604807628,
   770255983, 1249150122, 1555081692, 1996064986, 2554220882,
   2821834349, 2952996808, 3210313671, 3336571891, 3584528711,
   113926993, 338241895, 666307205, 773529912, 1294757372,
   1396182291, 1695183700, 1986661051, 2177026350, 2456956037,
   2730485921, 2820302411, 3259730800, 3345764771, 3516065817,
   3600352804, 4094571909, 275423344, 430227734, 506948616,
   659060556, 883997877, 958139571, 1322822218, 1537002063,
   1747873779, 1955562222, 2024104815, 2227730452, 2361852424,
   2428436474, 2756734187, 3204031479, 3329325298]

def H0 : List Nat :=
  [1779033703, 3144134277, 1013904242, 2773480762, 1359893119,
   2600822924, 528734635, 1541459225]

/-- Append the 0x80 byte, zero padding and the 64-bit big-endian bit length. -/
def pad (msg : List Nat) : List Nat :=
  let len := msg.length
  let bitLen := 8 * len
  let padZeros := (55 + 64 - len % 64) % 64
  msg ++ [0x80] ++ List.replicate padZeros 0
    ++ (List.range 8).map (fun i => (bitLen >>> (8 * (7 - i))) % 256)

/-- Big-endian 32-bit words from bytes. -/
def toWords : List Nat → List Nat
  | a :: b :: c :: d :: rest => (a * 2 ^ 24 + b * 2 ^ 16 + c * 2 ^ 8 + d) :: toWords rest
  | _ => []

/-- Message schedule W₀..W₆₃. -/
def schedule (ws : List Nat) : Array Nat :=
  (List.range 48).foldl (fun w _ =>
    w.push (w32 (ssig1 (w.getD (w.size - 2) 0) + w.getD (w.size - 7) 0
      + ssig0 (w.getD (w.size - 15) 0) + w.getD (w.size - 16) 0))) ws.toArray

/-- One compression round. -/
def round (w : Array Nat) (s : Nat × Nat × Nat × Nat × Nat × Nat × Nat × Nat)
    (i : Nat) : Nat × Nat × Nat × Nat × Nat × Nat × Nat × Nat :=
  let (a, b, c, d, e, f, g, h) := s
  let ch := (e &&& f) ^^^ ((e ^^^ 0xffffffff) &&& g)
  let maj := (a &&& b) ^^^ (a &&& c) ^^^ (b &&& c)
  let t1 := w32 (h + bsig1 e + ch + K.getD i 0 + w.getD i 0)
  let t2 := w32 (bsig0 a + maj)
  (w32 (t1 + t2), a, b, c, w32 (d + t1), e, f, g)

/-- Compress one 64-byte block into the running hash. -/
def compressBlock (h : List Nat) (block : List Nat) : List Nat :=
  let w := schedule (toWords block)
  let init := (h.getD 0 0, h.getD 1 0, h.getD 2 0, h.getD 3 0,
    h.getD 4 0, h.getD 5 0, h.getD 6 0, h.getD 7 0)
  let (a, b, c, d, e, f, g, hh) := (List.range 64).foldl (round w) init
  [w32 (h.getD 0 0 + a), w32 (h.getD 1 0 + b), w32 (h.getD 2 0 + c),
   w32 (h.getD 3 0 + d), w32 (h.getD 4 0 + e), w32 (h.getD 5 0 + f),
   w32 (h.getD 6 0 + g), w32 (h.getD 7 0 + hh)]

/-- Split into 64-byte blocks. -/
def chunks (l : List Nat) : List (List Nat) :=
  if h : l.isEmpty then [] else l.take 64 :: chunks (l.drop 64)
termination_by l.length
decreasing_by
  simp only [List.isEmpty_iff] at h
  have : 0 < l.length := List.length_pos.mpr h
  simp [List.length_drop]
  omega

/-- The eight 32-bit digest words of a byte string. -/
def digestWords (msg : List Nat) : List Nat := (chunks (pad msg)).foldl compressBlock H0

end SHA256

/-- UTF-8 encoding of one scalar value. -/
def encodeUtf8Char (c : Char) : List Nat :=
  let n := c.toNat
  if n < 0x80 then [n]
  else if n < 0x800 then [0xc0 ||| (n >>> 6), 0x80 ||| (n &&& 0x3f)]
  else if n < 0x10000 then
    [0xe0 ||| (n >>> 12), 0x80 ||| ((n >>> 6) &&& 0x3f), 0x80 ||| (n &&& 0x3f)]
  else
    [0xf0 ||| (n >>> 18), 0x80 ||| ((n >>> 12) &&& 0x3f),
     0x80 ||| ((n >>> 6) &&& 0x3f), 0x80 ||| (n &&& 0x3f)]

/-- Model of `s.encode("utf-8")`. -/
def utf8Bytes (s : String) : List Nat := (s.data.map encodeUtf8Char).flatten

/-- Model of `int(hashlib.sha256(bytes).hexdigest()[:16], 16)`: the first 16 hex
digits are the first 8 digest bytes, i.e. the first two digest words
big-endian. -/
def sha256seed (bytes : List Nat) : Nat :=
  let ws := SHA256.digestWords bytes
  ws.getD 0 0 * 2 ^ 32 + ws.getD 1 0

namespace MT19937

/-- Generator state: 624 words plus the read index. -/
structure MTState where
  mt : Array Nat
  index : Nat

/-- Model of `init_genrand`. -/
def init_genrand (s : Nat) : Array Nat :=
  (List.range 623).foldl (fun mt i =>
    let prev := mt.getD i 0
    mt.push (w32 (1812433253 * (prev ^^^ (prev >>> 30)) + (i + 1)))) #[w32 s]

/-- One step of the first `init_by_array` mixing loop. -/
def mixKeyStep (key : Array Nat) (klen : Nat) (s : Array Nat × Nat × Nat) (_ : Nat) :
    Array Nat × Nat × Nat :=
  let (mt, i, j) := s
  let prev := mt.getD (i - 1) 0
  let v := w32 ((mt.getD i 0 ^^^ w32 ((prev ^^^ (prev >>> 30)) * 1664525))
    + key.getD j 0 + j)
  let mt := mt.setD i v
  let i := i + 1
  let j := j + 1
  let s' := if i ≥ 624 then (mt.setD 0 (mt.getD 623 0), 1) else (mt, i)
  (s'.1, s'.2, if j ≥ klen then 0 else j)

/-- One step of the second `init_by_array` mixing loop. -/
def mixStep (s : Array Nat × Nat) (_ : Nat) : Array Nat × Nat :=
  let (mt, i) := s
  let prev := mt.getD (i - 1) 0
  let v := sub32 (mt.getD i 0 ^^^ w32 ((prev ^^^ (prev >>> 30)) * 1566083941)) i
  let mt := mt.setD i v
  let i := i + 1
  if i ≥ 624 then (mt.setD 0 (mt.getD 623 0), 1) else (mt, i)

/-- Model of `init_by_array`: the state after seeding (`index = 624`, so the first
draw regenerates). -/
def init_by_array (key : List Nat) : MTState :=
  let keyArr := key.toArray
  let klen := key.length
  let s1 := (List.range (max 624 klen)).foldl (mixKeyStep keyArr klen)
    (init_genrand 19650218, 1, 0)
  let s2 := (List.range 623).foldl mixStep (s1.1, s1.2.1)
  ⟨s2.1.setD 0 0x80000000, 624⟩

/-- CPython `random_seed` key layout for a nonnegative int: its 32-bit words,
least significant first (`[0]` for zero). -/
def seedWords (n : Nat) : List Nat :=
  if h : n = 0 then [] else n % 2 ^ 32 :: seedWords (n / 2 ^ 32)
termination_by n
decreasing_by exact Nat.div_lt_self (Nat.pos_of_ne_zero h) (by norm_num)

def seedKey (n : Nat) : List Nat := if n = 0 then [0] else seedWords n

/-- In-place regeneration of all 624 words (the three C loops expressed as
one sequential pass; the index arithmetic modulo 624 reproduces which
neighbours are already twisted). -/
def genrand_step (mt0 : Array Nat) : Array Nat :=
  (List.range 624).foldl (fun mt kk =>
    let y := (mt.getD kk 0 &&& 0x80000000) ||| (mt.getD ((kk + 1) % 624) 0 &&& 0x7fffffff)
    let mag := if y % 2 = 1 then 0x9908b0df else 0
    mt.setD kk (mt.getD ((kk + 397) % 624) 0 ^^^ (y >>> 1) ^^^ mag)) mt0

/-- Output tempering. -/
def temper (y0 : Nat) : Nat :=
  let y1 := y0 ^^^ (y0 >>> 11)
  let y2 := y1 ^^^ (w32 (y1 <<< 7) &&& 0x9d2c5680)
  let y3 := y2 ^^^ (w32 (y2 <<< 15) &&& 0xefc60000)
  y3 ^^^ (y3 >>> 18)

/-- Model of `genrand_uint32`. -/
def nextUInt32 (s : MTState) : Nat × MTState :=
  if s.index ≥ 624 then
    let mt := genrand_step s.mt
    (temper (mt.getD 0 0), ⟨mt, 1⟩)
  else
    (temper (s.mt.getD s.index 0), ⟨s.mt, s.index + 1⟩)

/-- Model of `random_random` / `genrand_res53`: a 53-bit dyadic rational in `[0, 1)`;
doubles represent it exactly. -/
def randomDouble (s : MTState) : ℚ × MTState :=
  let (x, s1) := nextUInt32 s
  let (y, s2) := nextUInt32 s1
  (((x >>> 5) * 67108864 + (y >>> 6) : ℚ) / 9007199254740992, s2)

/-- Model of `uniform(-1.0, 1.0) = -1.0 + 2.0 * random()`; exact in doubles, exact
here. -/
def uniformNeg11 (s : MTState) : ℚ × MTState :=
  let (r, s1) := randomDouble s
  (-1 + 2 * r, s1)

/-- Model of `[rng.uniform(-1.0, 1.0) for _ in range(dim)]`. -/
def uniforms (seed : Nat) (dim : Nat) : List ℚ :=
  (List.range dim).foldl (fun (acc : List ℚ × MTState) _ =>
    let (q, s') := uniformNeg11 acc.2
    (acc.1 ++ [q], s')) ([], init_by_array (seedKey seed)) |>.1

end MT19937

/-- A call-site payload: the dicts passed to `embed_text` (string keys,
values already rendered as `f-string` text, `none` for Python `None`). -/
def EmbedPayload : Type := List (String × Option String)

/-- Lexicographic code-point comparison (Python `<` on strings). -/
def charListLt : List Char → List Char → Bool
  | [], [] => false
  | [], _ :: _ => true
  | _ :: _, [] => false
  | a :: as, b :: bs =>
    if a.toNat < b.toNat then true
    else if b.toNat < a.toNat then false
    else charListLt as bs

/-- See `charListLt`. -/
def strLt (a b : String) : Bool := charListLt a.data b.data

/-- Stable insertion into a key-sorted association list. -/
def insertByKey (kv : String × Option String) :
    List (String × Option String) → List (String × Option String)
  | [] => [kv]
  | h :: t => if strLt kv.1 h.1 then kv :: h :: t else h :: insertByKey kv t

/-- Model of `sorted(data.keys())` order on the items (stable; dict keys are
distinct). -/
def sortByKey (l : List (String × Option String)) : List (String × Option String) :=
  l.foldr insertByKey []

/-- Model of `embeddings._normalize_payload` on a dict: sorted keys, `None` values
skipped, `"key:value"` parts joined with `" | "`. -/
def _normalize_payload (data : EmbedPayload) : String :=
  let sorted := sortByKey data
  let parts := sorted.filterMap (fun kv => kv.2.map (fun v => kv.1 ++ ":" ++ v))
  String.intercalate " | " parts

/-- Model of `embeddings._fallback_embedding`. -/
def _fallback_embedding (dim : Nat) (normalized : String) : List ℚ :=
  if normalized.isEmpty then List.replicate dim 0
  else MT19937.uniforms (sha256seed (utf8Bytes normalized)) dim

/-- Model of `embeddings.embed_text`: `service` is the embedding provider call on the
normalized text (`.error` = any exception or timeout).  With strict mode off
the provider outcome can only be returned or replaced by the fallback, never
re-raised. -/
def embed_text (dim : Nat) (api_url_set strict : Bool)
    (service : String → Except String (List ℚ)) (data : EmbedPayload) :
    Except String (List ℚ) :=
  let normalized := _normalize_payload data
  if normalized.isEmpty then .ok (List.replicate dim 0)
  else if api_url_set then
    match service normalized with
    | .ok vec => .ok vec
    | .error e =>
      if strict then .error e else .ok (_fallback_embedding dim normalized)
  else .ok (_fallback_embedding dim normalized)

/-! ## Concrete fixtures for witnesses and counterexamples -/

/-- A concrete solution row for witnesses and counterexamples. -/
def sampleSolution (id uid kid vis : String) (up dn : Int) : Solution :=
  { id := id, user_id := uid, api_key_id := kid
    title := "t", error_message := "e", error_type := "ty", context := "c"
    root_cause := "r", solution := "s", code_changes := none, tags := []
    conversation_language := none, programming_language := none
    vibecoding_software := none, project_path := none, environment := none
    visibility := vis, upvotes := up, downvotes := dn
    created_at := ⟨2025, 1, 1, 0, 0, 0⟩, embedding := none
    embedding_status := "pending", embedding_error := none }

/-- Concrete state for the C1 witness: one consistent solution with one
upvote. -/
def voteDb₂ : DB :=
  { solutions := [sampleSolution "s1" "u1" "k1" VISIBILITY_PRIVATE 1 0]
    votes := [⟨"v1", "s1", "u2", 1⟩] }

/-- Concrete state for the C1 counterexample: one consistent private solution
with no votes; `bump_upvotes` (a vote mutation exposed by `crud.py`) raises
its stored `upvotes` to 1 while the vote table stays empty, so the stored
aggregate no longer equals the count of +1 `SolutionVote` rows. -/
def voteDb₁ : DB :=
  { solutions := [sampleSolution "s1" "u1" "k1" VISIBILITY_PRIVATE 0 0]
    votes := [] }


/-- Concrete state for the C7 witness: a private solution with 2/1 aggregates
and an unrelated existing vote. -/
def rtDb : DB :=
  { solutions := [sampleSolution "s1" "u1" "k1" VISIBILITY_PRIVATE 2 1]
    votes := [⟨"v0", "s1", "u9", 1⟩] }

/-- Index holding one team document, for the C2 counterexample. -/
def teamEsIndex : EsIndex :=
  [("s1", solution_to_es_doc (sampleSolution "s1" "u1" "k1" VISIBILITY_TEAM 0 0) none)]

/-- A concrete create payload. -/
def samplePayload : SolutionCreate :=
  { title := "t", errorMessage := "e", errorType := "ty", context := "c"
    rootCause := "r", solution := "s", codeChanges := none, tags := []
    conversationLanguage := none, programmingLanguage := none
    vibecodingSoftware := none, projectPath := none, environment := none
    embedding := none, visibility := none }

/-- A key scope with no limits. -/
def freeScope : KeyScope :=
  { key_id := "k1", api_key_id := "k1", user_id := "u1", is_sub := false
    parent_id := none, can_read := true, can_write := true
    daily_limit := none, monthly_limit := none }

/-- A key scope with a daily limit of 1. -/
def limitedScope : KeyScope := { freeScope with daily_limit := some 1 }

/-- A key scope carrying both limits: daily 5 (not reached in the witness
state), monthly 1 (reached). -/
def bothScope : KeyScope :=
  { freeScope with daily_limit := some 5, monthly_limit := some 1 }

/-- A reference instant. -/
def now₀ : UTCTime := ⟨2025, 6, 15, 12, 0, 0⟩

/-- Empty combined state. -/
def emptyState : SysState := { db := { solutions := [], votes := [] }, es := [] }

/-- Combined state where solution s1 exists in both stores and its index
document carries an embedding vector (as the create path wrote it). -/
def delState : SysState :=
  { db := { solutions := [sampleSolution "s1" "u1" "k1" VISIBILITY_PRIVATE 0 0], votes := [] }
    es := [("s1", solution_to_es_doc (sampleSolution "s1" "u1" "k1" VISIBILITY_PRIVATE 0 0)
      (some [(1 : ℚ)]))] }

/-- Combined state where a private solution s1 exists in both stores, in
sync, for the C5 witness. -/
def visState : SysState :=
  { db := { solutions := [sampleSolution "s1" "u1" "k1" VISIBILITY_PRIVATE 0 0], votes := [] }
    es := [("s1", solution_to_es_doc (sampleSolution "s1" "u1" "k1" VISIBILITY_PRIVATE 0 0) none)] }

/-- State holding one solution created today by k1, for the C6 witness. -/
def quotaState : SysState :=
  { db := { solutions := [{ sampleSolution "sOld" "u1" "k1" VISIBILITY_PRIVATE 0 0 with
      created_at := ⟨2025, 6, 15, 8, 0, 0⟩ }], votes := [] }
    es := [] }

/-- Remote environment with a non-loopback configured base and no
allow-list, for the C8 counterexample. -/
def remoteEnv₀ : RemoteEnv :=
  { base := some "http://peer.internal:9000", api_key := some "k"
    allow_override := false, allowed_hosts := [] }

/-- Remote environment with an allow-list, for the C8 witness. -/
def remoteEnv₁ : RemoteEnv :=
  { base := some "https://peer.example", api_key := some "k"
    allow_override := false, allowed_hosts := ["peer.example"] }

/-- Two payloads that normalize to the same string (same keys and values,
different insertion order). -/
def payloadA : EmbedPayload := [("b", some "2"), ("a", some "1")]

/-- See `payloadA`. -/
def payloadB : EmbedPayload := [("a", some "1"), ("b", some "2")]

/-- An active parent key row. -/
def parentKey : ApiKeyRow :=
  { id := "k1", user_id := "u1", revoked := false
    daily_limit := none, monthly_limit := none }

/-- A stored sub key with both permissions on. -/
def subKey₀ : SubApiKeyRow :=
  { id := "sk1", parent_api_key_id := "k1", user_id := "u1", name := "n"
    revoked := false, can_read := true, can_write := true
    daily_limit := none, monthly_limit := none }

/-- Create payload asking for write without read. -/
def subPayloadWC : SubApiKeyCreate :=
  { name := "agent", canRead := some false, canWrite := some true
    dailyLimit := none, monthlyLimit := none }

/-- The row `create_sub_api_key` stores for `subPayloadWC`: read coerced on. -/
def subRecWC : SubApiKeyRow :=
  { id := "sk9", parent_api_key_id := "k1", user_id := "u1", name := "agent"
    revoked := false, can_read := true, can_write := true
    daily_limit := none, monthly_limit := none }

/-! ## Helper lemmas -/

theorem nodup_id_unique {votes : List SolutionVote} {a b : SolutionVote}
    (hnd : (votes.map SolutionVote.id).Nodup) (ha : a ∈ votes) (hb : b ∈ votes)
    (hid : a.id = b.id) : a = b := by
  have := List.inj_on_of_nodup_map hnd
  exact this ha hb hid

/-- Deleting the row with primary key `e.id` removes exactly `e` from every
count. -/
theorem countP_filter_ne_id (votes : List SolutionVote) (e : SolutionVote)
    (hmem : e ∈ votes) (hnd : (votes.map SolutionVote.id).Nodup)
    (p : SolutionVote → Bool) :
    (votes.filter (fun v => decide (v.id ≠ e.id))).countP p
      + (if p e then 1 else 0) = votes.countP p := by
  induction votes with
  | nil => cases hmem
  | cons h t ih =>
    have hnd' : (t.map SolutionVote.id).Nodup := (List.nodup_cons.mp hnd).2
    have hhead : h.id ∉ t.map SolutionVote.id := (List.nodup_cons.mp hnd).1
    rcases List.mem_cons.mp hmem with rfl | hmt
    · have hft : t.filter (fun v => !decide (v.id = e.id)) = t := by
        apply List.filter_eq_self.mpr
        intro v hv
        simp only [Bool.not_eq_true', decide_eq_false_iff_not]
        intro hEq
        exact hhead (hEq ▸ List.mem_map_of_mem SolutionVote.id hv)
      cases hpe : p e <;>
        simp [List.filter_cons, List.countP_cons, hpe, decide_not, hft]
    · have hne : h.id ≠ e.id := by
        intro hEq
        exact hhead (hEq ▸ List.mem_map_of_mem SolutionVote.id hmt)
      have hkeep : ((h :: t).filter (fun v => decide (v.id ≠ e.id)))
          = h :: t.filter (fun v => decide (v.id ≠ e.id)) := by
        simp [List.filter_cons, hne]
      rw [hkeep, List.countP_cons, List.countP_cons]
      have hih := ih hmt hnd'
      cases hph : p h <;> cases hpe : p e <;>
        simp only [hph, hpe, if_true, if_false] at hih ⊢ <;> omega

/-- Updating the row with primary key `e.id` replaces exactly `e` by `f e`
in every count. -/
theorem countP_map_update_id (votes : List SolutionVote) (e : SolutionVote)
    (f : SolutionVote → SolutionVote)
    (hmem : e ∈ votes) (hnd : (votes.map SolutionVote.id).Nodup)
    (p : SolutionVote → Bool) :
    (votes.map (fun v => if v.id = e.id then f v else v)).countP p
      + (if p e then 1 else 0)
      = votes.countP p + (if p (f e) then 1 else 0) := by
  induction votes with
  | nil => cases hmem
  | cons h t ih =>
    have hnd' : (t.map SolutionVote.id).Nodup := (List.nodup_cons.mp hnd).2
    have hhead : h.id ∉ t.map SolutionVote.id := (List.nodup_cons.mp hnd).1
    rcases List.mem_cons.mp hmem with rfl | hmt
    · have hmap : t.map (fun v => if v.id = e.id then f v else v) = t := by
        have hcongr : ∀ v ∈ t, (if v.id = e.id then f v else v) = v := by
          intro v hv
          have hne : v.id ≠ e.id := by
            intro hEq
            exact hhead (hEq ▸ List.mem_map_of_mem SolutionVote.id hv)
          simp [hne]
        conv_rhs => rw [← List.map_id t]
        exact List.map_congr_left hcongr
      rw [List.map_cons, hmap, if_pos rfl, List.countP_cons, List.countP_cons]
      cases hpe : p e <;> cases hpf : p (f e) <;>
        simp only [hpe, hpf, if_true, if_false] <;> omega
    · have hne : h.id ≠ e.id := by
        intro hEq
        exact hhead (hEq ▸ List.mem_map_of_mem SolutionVote.id hmt)
      rw [List.map_cons, if_neg hne, List.countP_cons, List.countP_cons]
      have hih := ih hmt hnd'
      cases hph : p h <;> cases hpe : p e <;> cases hpf : p (f e) <;>
        simp only [hph, hpe, hpf, if_true, if_false] at hih ⊢ <;> omega

/-- Primary-key lookup on a table whose ids are unique finds the member
itself. -/
theorem find_id_of_nodup (l : List Solution) (sol : Solution)
    (hmem : sol ∈ l) (hnd : (l.map Solution.id).Nodup) :
    l.find? (fun s => decide (s.id = sol.id)) = some sol := by
  induction l with
  | nil => cases hmem
  | cons h t ih =>
    have hnd' : (t.map Solution.id).Nodup := (List.nodup_cons.mp hnd).2
    have hhead : h.id ∉ t.map Solution.id := (List.nodup_cons.mp hnd).1
    rcases List.mem_cons.mp hmem with rfl | hmt
    · simp [List.find?_cons]
    · have hne : h.id ≠ sol.id := by
        intro hEq
        exact hhead (hEq ▸ List.mem_map_of_mem Solution.id hmt)
      rw [List.find?_cons]
      simp only [hne, decide_False]
      exact ih hmt hnd'

/-- Model of `set_solution_vote` preserves the aggregate invariant (it maintains the
aggregates incrementally, so consistency before implies consistency after). -/
theorem set_solution_vote_preserves (db : DB) (sol : Solution) (uid nid : String)
    (value : Int) (db' : DB) (rv : Int)
    (hinv : voteInvariant db) (hmem : sol ∈ db.solutions)
    (hnd : (db.votes.map SolutionVote.id).Nodup)
    (hval : ∀ v ∈ db.votes, v.value = 1 ∨ v.value = -1)
    (hok : set_solution_vote db sol uid value nid = .ok (db', rv)) :
    voteInvariant db' := by
  unfold set_solution_vote at hok
  by_cases hv : value = -1 ∨ value = 1
  swap
  · rw [if_pos hv] at hok; cases hok
  rw [if_neg (not_not_intro hv)] at hok
  by_cases huser : sol.user_id = uid
  · rw [if_pos huser] at hok; cases hok
  rw [if_neg huser] at hok
  cases hfind : findVote db.votes sol.id uid with
  | none =>
    rw [hfind] at hok
    simp only [Except.ok.injEq, Prod.mk.injEq] at hok
    obtain ⟨h1, _⟩ := hok
    subst h1
    intro s' hs'
    simp only [DB.setSolution, List.mem_map] at hs'
    obtain ⟨t, hmt, rfl⟩ := hs'
    by_cases hid : t.id = sol.id
    · obtain ⟨hup, hdn⟩ := hinv sol hmem
      rw [if_pos hid]
      constructor
      · show sol.upvotes + _ = _
        simp only [upCount, List.countP_cons]
        rcases hv with rfl | rfl <;> simp [hup, upCount]
      · show sol.downvotes + _ = _
        simp only [downCount, List.countP_cons]
        rcases hv with rfl | rfl <;> simp [hdn, downCount]
    · rw [if_neg hid]
      obtain ⟨hup, hdn⟩ := hinv t hmt
      have hneq : sol.id ≠ t.id := fun hEq => hid hEq.symm
      constructor
      · simpa [upCount, List.countP_cons, hneq] using hup
      · simpa [downCount, List.countP_cons, hneq] using hdn
  | some existing =>
    rw [hfind] at hok
    dsimp only at hok
    have hmemv : existing ∈ db.votes := List.mem_of_find?_eq_some hfind
    have hprop := List.find?_some hfind
    simp only [Bool.and_eq_true, decide_eq_true_eq] at hprop
    obtain ⟨hsolid, huid⟩ := hprop
    have hexval := hval existing hmemv
    by_cases hsame : existing.value = value
    · rw [if_pos hsame] at hok
      simp only [Except.ok.injEq, Prod.mk.injEq] at hok
      obtain ⟨h1, _⟩ := hok
      exact h1 ▸ hinv
    rw [if_neg hsame] at hok
    simp only [Except.ok.injEq, Prod.mk.injEq] at hok
    obtain ⟨h1, h2⟩ := hok
    subst h1
    subst h2
    intro s' hs'
    simp only [DB.setSolution, List.mem_map] at hs'
    obtain ⟨t, hmt, rfl⟩ := hs'
    have hupEq := countP_map_update_id db.votes existing
      (fun v => { v with value := value }) hmemv hnd
    by_cases hid : t.id = sol.id
    · obtain ⟨hup, hdn⟩ := hinv sol hmem
      rw [if_pos hid]
      constructor
      · show sol.upvotes - _ + _ = _
        have h1 := hupEq (fun v => decide (v.solution_id = sol.id) && decide (v.value = 1))
        simp only [upCount] at hup ⊢
        rcases hexval with hex | hex <;> rcases hv with hv1 | hv1 <;>
          first
            | exact absurd (hex.trans hv1.symm) hsame
            | (simp [hex, hv1, hsolid] at h1 ⊢; omega)
      · show sol.downvotes - _ + _ = _
        have h1 := hupEq (fun v => decide (v.solution_id = sol.id) && decide (v.value = -1))
        simp only [downCount] at hdn ⊢
        rcases hexval with hex | hex <;> rcases hv with hv1 | hv1 <;>
          first
            | exact absurd (hex.trans hv1.symm) hsame
            | (simp [hex, hv1, hsolid] at h1 ⊢; omega)
    · rw [if_neg hid]
      obtain ⟨hup, hdn⟩ := hinv t hmt
      have hneq : existing.solution_id ≠ t.id := fun hEq => hid (hsolid ▸ hEq).symm
      constructor
      · have h1 := hupEq (fun v => decide (v.solution_id = t.id) && decide (v.value = 1))
        simp only [upCount] at hup ⊢
        simp only [List.countP_map] at h1 ⊢
        simp [hneq] at h1
        omega
      · have h1 := hupEq (fun v => decide (v.solution_id = t.id) && decide (v.value = -1))
        simp only [downCount] at hdn ⊢
        simp only [List.countP_map] at h1 ⊢
        simp [hneq] at h1
        omega

/-- Model of `clear_solution_vote` preserves the aggregate invariant. -/
theorem clear_solution_vote_preserves (db : DB) (sol : Solution) (uid : String)
    (hinv : voteInvariant db) (hmem : sol ∈ db.solutions)
    (hnd : (db.votes.map SolutionVote.id).Nodup)
    (hval : ∀ v ∈ db.votes, v.value = 1 ∨ v.value = -1) :
    voteInvariant (clear_solution_vote db sol uid) := by
  unfold clear_solution_vote
  cases hfind : findVote db.votes sol.id uid with
  | none => exact hinv
  | some existing =>
    dsimp only
    have hmemv := List.mem_of_find?_eq_some hfind
    have hprop := List.find?_some hfind
    simp only [Bool.and_eq_true, decide_eq_true_eq] at hprop
    obtain ⟨hsolid, huid⟩ := hprop
    have hexval := hval existing hmemv
    intro s' hs'
    simp only [DB.setSolution, List.mem_map] at hs'
    obtain ⟨t, hmt, rfl⟩ := hs'
    have hdelEq := countP_filter_ne_id db.votes existing hmemv hnd
    by_cases hid : t.id = sol.id
    · obtain ⟨hup, hdn⟩ := hinv sol hmem
      rw [if_pos hid]
      constructor
      · show sol.upvotes - _ = _
        have h1 := hdelEq (fun v => decide (v.solution_id = sol.id) && decide (v.value = 1))
        simp only [upCount] at hup ⊢
        rcases hexval with hex | hex <;> (simp [hex, hsolid] at h1 ⊢; omega)
      · show sol.downvotes - _ = _
        have h1 := hdelEq (fun v => decide (v.solution_id = sol.id) && decide (v.value = -1))
        simp only [downCount] at hdn ⊢
        rcases hexval with hex | hex <;> (simp [hex, hsolid] at h1 ⊢; omega)
    · rw [if_neg hid]
      obtain ⟨hup, hdn⟩ := hinv t hmt
      have hneq : existing.solution_id ≠ t.id := fun hEq => hid (hsolid ▸ hEq).symm
      constructor
      · have h1 := hdelEq (fun v => decide (v.solution_id = t.id) && decide (v.value = 1))
        simp only [upCount] at hup ⊢
        simp [hneq] at h1 ⊢
        omega
      · have h1 := hdelEq (fun v => decide (v.solution_id = t.id) && decide (v.value = -1))
        simp only [downCount] at hdn ⊢
        simp [hneq] at h1 ⊢
        omega


/-- C1 (amended): `set_solution_vote` and `clear_solution_vote` preserve the
aggregate/vote-count correspondence — they maintain the stored aggregates
incrementally rather than recomputing them from the vote table — while
`bump_upvotes` writes no vote row at all (the vote table is untouched), which
is why it can break the correspondence. -/
theorem vote_mutations_and_aggregates (db : DB) (sol : Solution)
    (uid nid : String) (value : Int)
    (hinv : voteInvariant db) (hmem : sol ∈ db.solutions)
    (hnd : (db.votes.map SolutionVote.id).Nodup)
    (hval : ∀ v ∈ db.votes, v.value = 1 ∨ v.value = -1) :
    (∀ db' rv, set_solution_vote db sol uid value nid = .ok (db', rv) →
      voteInvariant db')
    ∧ voteInvariant (clear_solution_vote db sol uid)
    ∧ ∀ (db₂ : DB) (sids kids : List String) (team : Bool),
        ((bump_upvotes db₂ sids kids team).1).votes = db₂.votes := by
  refine ⟨fun db' rv hok =>
      set_solution_vote_preserves db sol uid nid value db' rv hinv hmem hnd hval hok,
    clear_solution_vote_preserves db sol uid hinv hmem hnd hval, ?_⟩
  intro db₂ sids kids team
  unfold bump_upvotes
  by_cases h1 : sids.isEmpty
  · simp [h1]
  by_cases h2 : (_access_conditions kids team).isEmpty
  · simp [h1, h2]
  · simp [h1, h2]


theorem vote_mutations_and_aggregates_witness :
    (voteInvariant voteDb₂ ∧
      sampleSolution "s1" "u1" "k1" VISIBILITY_PRIVATE 1 0 ∈ voteDb₂.solutions) ∧
    voteInvariant (clear_solution_vote voteDb₂
      (sampleSolution "s1" "u1" "k1" VISIBILITY_PRIVATE 1 0) "u2") :=
  ⟨⟨by decide, by decide⟩,
    (vote_mutations_and_aggregates voteDb₂
      (sampleSolution "s1" "u1" "k1" VISIBILITY_PRIVATE 1 0) "u2" "v9" 1
      (by decide) (by decide) (by decide) (by decide)).2.1⟩


/-- C1 counterexample: after `bump_upvotes` the invariant the claim asserts
is false, and the aggregates were in any case never recomputed from the vote
table. -/
theorem vote_aggregates_counterexample :
    voteInvariant voteDb₁ ∧
    ¬ voteInvariant (bump_upvotes voteDb₁ ["s1"] ["k1"] false).1 := by
  constructor
  · decide
  · decide

/-- Replacing the row at one id leaves the id column unchanged. -/
theorem ids_map_update (l : List Solution) (sid : String) (s' : Solution)
    (hid : s'.id = sid) :
    (l.map (fun t => if t.id = sid then s' else t)).map Solution.id
      = l.map Solution.id := by
  rw [List.map_map]
  exact List.map_congr_left (fun t ht => by
    by_cases h : t.id = sid <;> simp [Function.comp, h, hid])

/-- C7: casting a first vote `v`, changing it to `-v`, then clearing it
returns the solution's aggregates exactly to their pre-vote values (and the
vote table to its pre-vote contents). -/
theorem vote_round_trip (db : DB) (sol : Solution) (uid nid1 nid2 : String) (v : Int)
    (hv : v = 1 ∨ v = -1)
    (howner : sol.user_id ≠ uid)
    (hmem : sol ∈ db.solutions)
    (hndSol : (db.solutions.map Solution.id).Nodup)
    (hnovote : findVote db.votes sol.id uid = none)
    (hfresh : nid1 ∉ db.votes.map SolutionVote.id) :
    ∃ db1 db2,
      castVote db sol.id uid v nid1 = .ok db1 ∧
      castVote db1 sol.id uid (-v) nid2 = .ok db2 ∧
      getAggregates (clearVote db2 sol.id uid) sol.id
        = some (sol.upvotes, sol.downvotes) ∧
      (clearVote db2 sol.id uid).votes = db.votes := by
  have hvne : v ≠ -v := by rcases hv with rfl | rfl <;> decide
  have hvor : v = -1 ∨ v = 1 := hv.symm
  have hvneg : -v = -1 ∨ -v = 1 := by rcases hv with rfl | rfl <;> simp
  -- step 1: first vote
  have hfind1 : db.solutions.find? (fun s => decide (s.id = sol.id)) = some sol :=
    find_id_of_nodup db.solutions sol hmem hndSol
  set sol1 : Solution := { sol with
    upvotes := sol.upvotes + (if v = 1 then 1 else 0)
    downvotes := sol.downvotes + (if v = 1 then 0 else 1) } with hsol1
  set nv1 : SolutionVote := ⟨nid1, sol.id, uid, v⟩ with hnv1
  set db1 : DB := { solutions := db.solutions.map (fun t => if t.id = sol.id then sol1 else t)
                    votes := nv1 :: db.votes } with hdb1
  have hid1 : sol1.id = sol.id := by rw [hsol1]
  have hstep1 : castVote db sol.id uid v nid1 = .ok db1 := by
    unfold castVote
    rw [hfind1]
    dsimp only
    unfold set_solution_vote
    rw [if_neg (not_not_intro hvor), if_neg howner, hnovote]
    rfl
  -- carried facts for step 2
  have hmem1 : sol1 ∈ db1.solutions := by
    rw [hdb1]
    dsimp only
    have h := List.mem_map_of_mem (fun t => if t.id = sol.id then sol1 else t) hmem
    simpa using h
  have hnd1 : (db1.solutions.map Solution.id).Nodup := by
    rw [hdb1]
    dsimp only
    rw [ids_map_update db.solutions sol.id sol1 hid1]
    exact hndSol
  have hfind2 : db1.solutions.find? (fun s => decide (s.id = sol.id)) = some sol1 := by
    have h := find_id_of_nodup db1.solutions sol1 hmem1 hnd1
    rw [hid1] at h
    exact h
  have hfindvote2 : findVote db1.votes sol.id uid = some nv1 := by
    unfold findVote
    rw [hdb1]
    dsimp only
    rw [List.find?_cons]
    rw [show (decide (nv1.solution_id = sol.id) && decide (nv1.user_id = uid)) = true
      from by simp [hnv1]]
  -- step 2: flip the vote
  set sol2 : Solution := { sol1 with
    upvotes := sol1.upvotes - (if nv1.value = 1 then 1 else 0)
      + (if -v = 1 then 1 else 0)
    downvotes := sol1.downvotes - (if nv1.value = 1 then 0 else 1)
      + (if -v = 1 then 0 else 1) } with hsol2
  set nv2 : SolutionVote := ⟨nid1, sol.id, uid, -v⟩ with hnv2
  set db2 : DB := { solutions := db1.solutions.map (fun t => if t.id = sol2.id then sol2 else t)
                    votes := nv2 :: db.votes } with hdb2
  have hid2 : sol2.id = sol.id := by rw [hsol2, hsol1]
  have hvotes2 : db1.votes.map (fun w => if w.id = nv1.id then { w with value := -v } else w)
      = nv2 :: db.votes := by
    rw [hdb1]
    dsimp only
    rw [List.map_cons, if_pos rfl]
    have htail : db.votes.map (fun w => if w.id = nv1.id then { w with value := -v } else w)
        = db.votes := by
      have hcong : ∀ w ∈ db.votes,
          (if w.id = nv1.id then { w with value := -v } else w) = w := by
        intro w hw
        have hne : w.id ≠ nid1 := by
          intro hEq
          exact hfresh (hEq ▸ List.mem_map_of_mem SolutionVote.id hw)
        rw [if_neg (by rw [hnv1]; exact hne)]
      conv_rhs => rw [← List.map_id db.votes]
      exact List.map_congr_left hcong
    rw [htail, hnv2, hnv1]
  have hstep2 : castVote db1 sol.id uid (-v) nid2 = .ok db2 := by
    unfold castVote
    rw [hfind2]
    dsimp only
    unfold set_solution_vote
    rw [if_neg (not_not_intro hvneg)]
    rw [if_neg (show ¬sol1.user_id = uid from howner)]
    rw [show findVote db1.votes sol1.id uid = some nv1 from hfindvote2]
    dsimp only
    rw [if_neg (show ¬nv1.value = -v from hvne)]
    rw [hvotes2]
    rfl
  -- carried facts for step 3
  have hmem2 : sol2 ∈ db2.solutions := by
    rw [hdb2]
    dsimp only
    have h := List.mem_map_of_mem (fun t => if t.id = sol2.id then sol2 else t) hmem1
    simpa using h
  have hnd2 : (db2.solutions.map Solution.id).Nodup := by
    rw [hdb2]
    dsimp only
    rw [ids_map_update db1.solutions sol2.id sol2 rfl]
    exact hnd1
  have hfind3 : db2.solutions.find? (fun s => decide (s.id = sol.id)) = some sol2 := by
    have h := find_id_of_nodup db2.solutions sol2 hmem2 hnd2
    rw [hid2] at h
    exact h
  have hfindvote3 : findVote db2.votes sol.id uid = some nv2 := by
    unfold findVote
    rw [hdb2]
    dsimp only
    rw [List.find?_cons]
    rw [show (decide (nv2.solution_id = sol.id) && decide (nv2.user_id = uid)) = true
      from by simp [hnv2]]
  set sol3 : Solution := { sol2 with
    upvotes := sol2.upvotes - (if nv2.value = 1 then 1 else 0)
    downvotes := sol2.downvotes - (if nv2.value = 1 then 0 else 1) } with hsol3
  have hid3 : sol3.id = sol.id := by rw [hsol3, hsol2, hsol1]
  have hvotes3 : db2.votes.filter (fun w => decide (w.id ≠ nv2.id)) = db.votes := by
    rw [hdb2]
    dsimp only
    rw [List.filter_cons]
    rw [if_neg (by simp)]
    apply List.filter_eq_self.mpr
    intro w hw
    have hne : w.id ≠ nid1 := by
      intro hEq
      exact hfresh (hEq ▸ List.mem_map_of_mem SolutionVote.id hw)
    simpa [hnv2] using hne
  have hstep3 : clearVote db2 sol.id uid
      = { solutions := db2.solutions.map (fun t => if t.id = sol3.id then sol3 else t)
          votes := db.votes } := by
    unfold clearVote
    rw [hfind3]
    dsimp only
    unfold clear_solution_vote
    rw [show findVote db2.votes sol2.id uid = some nv2 from hfindvote3]
    dsimp only [DB.setSolution]
    rw [hvotes3]
  refine ⟨db1, db2, hstep1, hstep2, ?_, ?_⟩
  · -- aggregates restored exactly
    rw [hstep3]
    unfold getAggregates
    have hmem3 : sol3 ∈ (db2.solutions.map (fun t => if t.id = sol3.id then sol3 else t)) := by
      have h := List.mem_map_of_mem (fun t => if t.id = sol3.id then sol3 else t) hmem2
      dsimp only at h
      rw [if_pos (hid2.trans hid3.symm)] at h
      exact h
    have hnd3 : ((db2.solutions.map (fun t => if t.id = sol3.id then sol3 else t)).map
        Solution.id).Nodup := by
      rw [ids_map_update db2.solutions sol3.id sol3 rfl]
      exact hnd2
    have hfind4 := find_id_of_nodup _ sol3 hmem3 hnd3
    rw [show (fun s : Solution => decide (s.id = sol3.id))
      = (fun s : Solution => decide (s.id = sol.id)) from by
        funext s; rw [hid3]] at hfind4
    dsimp only
    rw [hfind4]
    simp only [Option.map_some']
    rcases hv with rfl | rfl <;> norm_num
  · rw [hstep3]

theorem vote_round_trip_witness :
    (findVote rtDb.votes "s1" "u2" = none ∧
      (sampleSolution "s1" "u1" "k1" VISIBILITY_PRIVATE 2 1).user_id ≠ "u2") ∧
    ∃ db1 db2,
      castVote rtDb "s1" "u2" 1 "vA" = .ok db1 ∧
      castVote db1 "s1" "u2" (-1) "vB" = .ok db2 ∧
      getAggregates (clearVote db2 "s1" "u2") "s1" = some (2, 1) ∧
      (clearVote db2 "s1" "u2").votes = rtDb.votes :=
  ⟨⟨by decide, by decide⟩,
    vote_round_trip rtDb (sampleSolution "s1" "u1" "k1" VISIBILITY_PRIVATE 2 1)
      "u2" "vA" "vB" 1 (Or.inl rfl) (by decide) (by decide) (by decide)
      (by decide) (by decide)⟩

/-- C2 (amended): in the relational path an explicit `team` filter without
`allow_team`, or `private` with no key ids, produces the `None` condition and
the operations return an empty page / zero count; in the index path an
explicit `private` filter with no key ids produces an always-false filter;
but an explicit `team` filter is translated to a bare
`term visibility = team` clause with `allow_team` ignored, so it is not
always-false (see the counterexample). -/
theorem explicit_visibility_filter_boundary :
    (∀ (ids : List String) (db : DB) (limit offset : Nat) (mq : Solution → Bool),
      _visibility_condition (some VISIBILITY_TEAM) ids false = none
      ∧ list_solutions db ids false limit offset (some VISIBILITY_TEAM) = (0, [])
      ∧ count_accessible_solutions db ids false (some VISIBILITY_TEAM) = 0
      ∧ search_solutions db mq ids false limit offset (some VISIBILITY_TEAM) = (0, []))
    ∧ (∀ (allow_team : Bool) (db : DB) (limit offset : Nat) (mq : Solution → Bool),
      _visibility_condition (some VISIBILITY_PRIVATE) [] allow_team = none
      ∧ list_solutions db [] allow_team limit offset (some VISIBILITY_PRIVATE) = (0, [])
      ∧ count_accessible_solutions db [] allow_team (some VISIBILITY_PRIVATE) = 0
      ∧ search_solutions db mq [] allow_team limit offset (some VISIBILITY_PRIVATE) = (0, []))
    ∧ (∀ (allow_team : Bool) (doc : EsDoc),
      esMatches (_build_access_filter [] allow_team false (some VISIBILITY_PRIVATE)) doc
        = false)
    ∧ (∀ (ids : List String),
      _build_access_filter ids false false (some VISIBILITY_TEAM)
        = .term "visibility" VISIBILITY_TEAM) := by
  refine ⟨?_, ?_, ?_, ?_⟩
  · intro ids db limit offset mq
    have hc : _visibility_condition (some VISIBILITY_TEAM) ids false = none := by
      simp [_visibility_condition]
    exact ⟨hc, by simp [list_solutions, hc], by simp [count_accessible_solutions, hc],
      by simp [search_solutions, hc]⟩
  · intro allow_team db limit offset mq
    have hc : _visibility_condition (some VISIBILITY_PRIVATE) [] allow_team = none := by
      simp [_visibility_condition, VISIBILITY_PRIVATE, VISIBILITY_TEAM]
    exact ⟨hc, by simp [list_solutions, hc], by simp [count_accessible_solutions, hc],
      by simp [search_solutions, hc]⟩
  · intro allow_team doc
    simp [_build_access_filter, esMatches, VISIBILITY_PRIVATE, VISIBILITY_TEAM]
  · intro ids
    rfl

/-- C2 counterexample: with `allow_team = false` (and no admin), the
explicit `team` filter on the index fetch path returns the team document —
not an empty result — so the claimed always-false predicate does not hold on
the index path. -/
theorem explicit_team_filter_counterexample :
    fetch_solution_es teamEsIndex "s1" [] false false (some VISIBILITY_TEAM)
      = some (solution_to_es_doc (sampleSolution "s1" "u1" "k1" VISIBILITY_TEAM 0 0) none)
    ∧ esMatches (_build_access_filter [] false false (some VISIBILITY_TEAM))
        (solution_to_es_doc (sampleSolution "s1" "u1" "k1" VISIBILITY_TEAM 0 0) none)
      = true := by
  constructor
  · rfl
  · rfl

/-- C3 (amended): when the index write during creation fails, the endpoint
surfaces a 502-class upstream failure and best-effort deletes the
just-created ledger row; whenever that compensating delete succeeds, no row
with the new id remains and the index is untouched.  (If the compensating
delete itself fails, the row remains — see the counterexample.) -/
theorem create_index_failure_compensation (st : SysState) (payload : SolutionCreate)
    (key_scope : KeyScope) (user_id : String) (now : UTCTime) (new_id : String)
    (knn_enabled : Bool) (embed_outcome : Except String (List ℚ))
    (nv : Option String)
    (hn : normalize_visibility payload.visibility = .ok nv)
    (hq : _enforce_api_key_limits st.db key_scope now = .ok ()) :
    ∀ res st', save_solution st payload key_scope user_id now new_id knn_enabled
        embed_outcome false true = (res, st') →
      res = .error .esIndexFailed
      ∧ (∀ s ∈ st'.db.solutions, s.id ≠ new_id)
      ∧ st'.es = st.es := by
  intro res st' heq
  unfold save_solution at heq
  rw [hn] at heq
  dsimp only at heq
  rw [hq] at heq
  dsimp only at heq
  simp only [Bool.false_eq_true, if_false, if_true, Prod.mk.injEq] at heq
  obtain ⟨h1, h2⟩ := heq
  refine ⟨h1.symm, ?_, by rw [← h2]⟩
  intro s hs
  rw [← h2] at hs
  have := List.of_mem_filter hs
  simpa using this

/-- Concrete failed-create run for the C3 counterexample (index write fails
and the best-effort compensating delete also fails). -/
def failedCreateRun : Except CreateError Solution × SysState :=
  save_solution emptyState samplePayload freeScope "u1" now₀ "sid1" false
    (.error "timeout") false false

/-- C3 counterexample: the index write failed and an upstream failure was
surfaced, yet the ledger row created by the operation still exists (the
compensating delete is best-effort and also failed), so "zero orphaned
ledger rows" does not hold as stated. -/
theorem create_index_failure_counterexample :
    failedCreateRun.1 = .error .esIndexFailed
    ∧ failedCreateRun.2.db.solutions.map Solution.id = ["sid1"] := by
  constructor
  · rfl
  · rfl

theorem create_index_failure_compensation_witness :
    (normalize_visibility samplePayload.visibility = .ok none
      ∧ _enforce_api_key_limits emptyState.db freeScope now₀ = .ok ()) ∧
    ((save_solution emptyState samplePayload freeScope "u1" now₀ "sid1" false
        (.error "timeout") false true).1 = .error .esIndexFailed
      ∧ (∀ s ∈ (save_solution emptyState samplePayload freeScope "u1" now₀ "sid1" false
          (.error "timeout") false true).2.db.solutions, s.id ≠ "sid1")
      ∧ (save_solution emptyState samplePayload freeScope "u1" now₀ "sid1" false
          (.error "timeout") false true).2.es = emptyState.es) :=
  ⟨⟨rfl, rfl⟩, by
    have h := create_index_failure_compensation emptyState samplePayload freeScope
      "u1" now₀ "sid1" false (.error "timeout") none rfl rfl
      (save_solution emptyState samplePayload freeScope "u1" now₀ "sid1" false
        (.error "timeout") false true).1
      (save_solution emptyState samplePayload freeScope "u1" now₀ "sid1" false
        (.error "timeout") false true).2 rfl
    exact h⟩

/-- C4 (amended): the delete endpoint removes the index document first and
only then deletes the ledger row and its votes atomically; if the index
delete fails nothing is mutated; if the ledger delete fails after the index
delete succeeded, a document rebuilt from the ledger row loaded before
deletion — `solution_to_es_doc sol` with no embedding field — is re-indexed
when possible, and the result distinguishes "rollback restored" from
"rollback also failed".  (The restored document is not byte-for-byte the
original index document: the embedding field is dropped — see the
counterexample.) -/
theorem delete_orchestration (st : SysState) (solution_id : String)
    (api_key_ids : List String) (allow_admin : Bool) (sol : Solution)
    (db_delete_ok es_reindex_ok : Bool)
    (hne : (api_key_ids.isEmpty && !allow_admin) = false)
    (hfound : (if allow_admin = true then
        st.db.solutions.find? (fun s => decide (s.id = solution_id))
      else st.db.solutions.find? (fun s =>
        decide (s.id = solution_id) && decide (s.api_key_id ∈ api_key_ids)))
      = some sol) :
    delete_user_solution st solution_id api_key_ids allow_admin false
        db_delete_ok es_reindex_ok = (.esDeleteFailed, st)
    ∧ delete_user_solution st solution_id api_key_ids allow_admin true true
        es_reindex_ok
      = (.deleted,
        { db := { solutions := st.db.solutions.filter (fun s => decide (s.id ≠ sol.id))
                  votes := st.db.votes.filter (fun v => decide (v.solution_id ≠ sol.id)) }
          es := indexDelete st.es solution_id })
    ∧ delete_user_solution st solution_id api_key_ids allow_admin true false true
      = (.dbFailedRollbackRestored,
        { db := st.db
          es := indexPut (indexDelete st.es solution_id) sol.id (solution_to_es_doc sol) })
    ∧ delete_user_solution st solution_id api_key_ids allow_admin true false false
      = (.dbFailedRollbackFailed, { db := st.db, es := indexDelete st.es solution_id }) := by
  cases hadm : allow_admin
  case false =>
    rw [hadm] at hfound hne
    rw [if_neg Bool.false_ne_true] at hfound
    refine ⟨?_, ?_, ?_, ?_⟩ <;>
      (unfold delete_user_solution
       rw [if_neg (by rw [hne]; exact Bool.false_ne_true)]
       rw [if_neg Bool.false_ne_true, hfound]
       rfl)
  case true =>
    rw [hadm] at hfound hne
    rw [if_pos (rfl : true = true)] at hfound
    refine ⟨?_, ?_, ?_, ?_⟩ <;>
      (unfold delete_user_solution
       rw [if_neg (by rw [hne]; exact Bool.false_ne_true)]
       rw [if_pos (rfl : true = true), hfound]
       rfl)

/-- Failing delete run for the C4 counterexample: index delete succeeds,
ledger delete fails, re-index succeeds. -/
def failedDeleteRun : DeleteResult × SysState :=
  delete_user_solution delState "s1" ["k1"] false true false true

/-- C4 counterexample: the create path had indexed the document with its
embedding vector; after the failed ledger delete the report says the index
was restored, but the re-inserted document was rebuilt without the embedding
field, so the original index document was not what got re-inserted. -/
theorem delete_restore_counterexample :
    failedDeleteRun.1 = .dbFailedRollbackRestored
    ∧ indexGet delState.es "s1"
      = some (solution_to_es_doc (sampleSolution "s1" "u1" "k1" VISIBILITY_PRIVATE 0 0)
        (some [(1 : ℚ)]))
    ∧ indexGet failedDeleteRun.2.es "s1"
      = some (solution_to_es_doc (sampleSolution "s1" "u1" "k1" VISIBILITY_PRIVATE 0 0) none)
    ∧ solution_to_es_doc (sampleSolution "s1" "u1" "k1" VISIBILITY_PRIVATE 0 0) none
      ≠ solution_to_es_doc (sampleSolution "s1" "u1" "k1" VISIBILITY_PRIVATE 0 0)
        (some [(1 : ℚ)]) := by
  refine ⟨rfl, rfl, rfl, ?_⟩
  decide

theorem delete_orchestration_witness :
    ((["k1"].isEmpty && !false) = false
      ∧ (delState.db.solutions.find? (fun s =>
          decide (s.id = "s1") && decide (s.api_key_id ∈ ["k1"])))
        = some (sampleSolution "s1" "u1" "k1" VISIBILITY_PRIVATE 0 0)) ∧
    delete_user_solution delState "s1" ["k1"] false false true true
      = (.esDeleteFailed, delState) :=
  ⟨⟨by decide, by decide⟩,
    (delete_orchestration delState "s1" ["k1"] false
      (sampleSolution "s1" "u1" "k1" VISIBILITY_PRIVATE 0 0) true true
      (by decide) (by decide)).1⟩

/-- Writing the new visibility into the index and then restoring the old one
is the same as writing the old one directly: the compensating update puts the
previous visibility value back. -/
theorem updateVisibilityEs_rollback (es : EsIndex) (doc_id : String) (vNew vOld : String) :
    updateVisibilityEs (updateVisibilityEs es doc_id vNew) doc_id vOld
      = updateVisibilityEs es doc_id vOld := by
  unfold updateVisibilityEs
  rw [List.map_map]
  exact List.map_congr_left (fun kv _ => by
    by_cases h : kv.1 = doc_id <;> simp [Function.comp, h])

/-- C5: the visibility update is a pure no-op when the requested value equals
the stored one; otherwise the index is written before the ledger: an index
failure leaves everything untouched, a ledger failure leaves the ledger
untouched and rolls the index back to the previous visibility value
(reporting whether that rollback worked), and only the both-succeed path
mutates both stores. -/
theorem visibility_update_orchestration (st : SysState) (solution_id : String)
    (requested : Option String) (api_key_ids : List String) (allow_admin : Bool)
    (sol : Solution) (nv : Option String) (vis : String)
    (es_rollback_ok : Bool)
    (hn : normalize_visibility requested = .ok nv)
    (hv : nv.getD VISIBILITY_PRIVATE = vis)
    (hne : (api_key_ids.isEmpty && !allow_admin) = false)
    (hfound : (if allow_admin = true then
        st.db.solutions.find? (fun s => decide (s.id = solution_id))
      else st.db.solutions.find? (fun s =>
        decide (s.id = solution_id) && decide (s.api_key_id ∈ api_key_ids)))
      = some sol) :
    (sol.visibility = vis →
      ∀ es_update_ok db_commit_ok : Bool,
        set_solution_visibility st solution_id requested api_key_ids allow_admin
          es_update_ok db_commit_ok es_rollback_ok = (.ok sol.visibility, st))
    ∧ (sol.visibility ≠ vis →
      (∀ db_commit_ok : Bool,
        set_solution_visibility st solution_id requested api_key_ids allow_admin
          false db_commit_ok es_rollback_ok = (.esUpdateFailed, st))
      ∧ set_solution_visibility st solution_id requested api_key_ids allow_admin
          true true es_rollback_ok
        = (.ok vis, { db := DB.setSolution st.db { sol with visibility := vis }
                      es := updateVisibilityEs st.es sol.id vis })
      ∧ set_solution_visibility st solution_id requested api_key_ids allow_admin
          true false true
        = (.dbFailedRollbackRestored,
          { db := st.db, es := updateVisibilityEs st.es sol.id sol.visibility })
      ∧ set_solution_visibility st solution_id requested api_key_ids allow_admin
          true false false
        = (.dbFailedRollbackFailed,
          { db := st.db, es := updateVisibilityEs st.es sol.id vis })) := by
  subst hv
  cases hadm : allow_admin
  case false =>
    rw [hadm] at hfound hne
    rw [if_neg Bool.false_ne_true] at hfound
    constructor
    · intro hsame es_update_ok db_commit_ok
      unfold set_solution_visibility
      rw [hn]
      dsimp only
      rw [if_neg (by rw [hne]; exact Bool.false_ne_true)]
      rw [if_neg Bool.false_ne_true, hfound]
      dsimp only
      rw [if_pos hsame]
    · intro hdiff
      refine ⟨fun db_commit_ok => ?_, ?_, ?_, ?_⟩ <;>
        (unfold set_solution_visibility
         rw [hn]
         dsimp only
         rw [if_neg (by rw [hne]; exact Bool.false_ne_true)]
         rw [if_neg Bool.false_ne_true, hfound]
         dsimp only
         rw [if_neg hdiff]
         try rw [updateVisibilityEs_rollback]
         rfl)
  case true =>
    rw [hadm] at hfound hne
    rw [if_pos (rfl : true = true)] at hfound
    constructor
    · intro hsame es_update_ok db_commit_ok
      unfold set_solution_visibility
      rw [hn]
      dsimp only
      rw [if_neg (by rw [hne]; exact Bool.false_ne_true)]
      rw [if_pos (rfl : true = true), hfound]
      dsimp only
      rw [if_pos hsame]
    · intro hdiff
      refine ⟨fun db_commit_ok => ?_, ?_, ?_, ?_⟩ <;>
        (unfold set_solution_visibility
         rw [hn]
         dsimp only
         rw [if_neg (by rw [hne]; exact Bool.false_ne_true)]
         rw [if_pos (rfl : true = true), hfound]
         dsimp only
         rw [if_neg hdiff]
         try rw [updateVisibilityEs_rollback]
         rfl)

theorem visibility_update_orchestration_witness :
    (normalize_visibility (some "team") = .ok (some VISIBILITY_TEAM)
      ∧ (["k1"].isEmpty && !false) = false
      ∧ (visState.db.solutions.find? (fun s =>
          decide (s.id = "s1") && decide (s.api_key_id ∈ ["k1"])))
        = some (sampleSolution "s1" "u1" "k1" VISIBILITY_PRIVATE 0 0)
      ∧ (sampleSolution "s1" "u1" "k1" VISIBILITY_PRIVATE 0 0).visibility
          ≠ VISIBILITY_TEAM) ∧
    set_solution_visibility visState "s1" (some "team") ["k1"] false true false true
      = (.dbFailedRollbackRestored,
        { db := visState.db
          es := updateVisibilityEs visState.es
            (sampleSolution "s1" "u1" "k1" VISIBILITY_PRIVATE 0 0).id
            (sampleSolution "s1" "u1" "k1" VISIBILITY_PRIVATE 0 0).visibility }) :=
  ⟨⟨rfl, by decide, by decide, by decide⟩,
    ((visibility_update_orchestration visState "s1" (some "team") ["k1"] false
      (sampleSolution "s1" "u1" "k1" VISIBILITY_PRIVATE 0 0) (some VISIBILITY_TEAM)
      VISIBILITY_TEAM true rfl rfl (by decide) (by decide)).2
      (by decide)).2.2.1⟩

/-- C6: the quota check is a no-op when the resolved KeyScope carries no
daily or monthly limit; with limits it counts the credential's solutions
since the start of the current UTC day / month and rejects with the
429-class error as soon as either count has reached its configured limit —
the daily limit is checked first, and the monthly limit fires both when it
is the only limit and when a daily limit is also present but its count is
still under it; the create endpoint turns any such rejection into a quota
error with no state mutated — in particular no solution row is created. -/
theorem quota_enforcement (db : DB) (key_scope : KeyScope) (now : UTCTime) :
    (key_scope.daily_limit = none → key_scope.monthly_limit = none →
      _enforce_api_key_limits db key_scope now = .ok ())
    ∧ (∀ d, key_scope.daily_limit = some d →
        d ≤ _count_solutions_since db key_scope.api_key_id (dayStart now) →
        _enforce_api_key_limits db key_scope now = .error (.daily d))
    ∧ (∀ m, key_scope.daily_limit = none → key_scope.monthly_limit = some m →
        m ≤ _count_solutions_since db key_scope.api_key_id (monthStart now) →
        _enforce_api_key_limits db key_scope now = .error (.monthly m))
    ∧ (∀ d m, key_scope.daily_limit = some d → key_scope.monthly_limit = some m →
        _count_solutions_since db key_scope.api_key_id (dayStart now) < d →
        m ≤ _count_solutions_since db key_scope.api_key_id (monthStart now) →
        _enforce_api_key_limits db key_scope now = .error (.monthly m))
    ∧ (∀ (st : SysState) (payload : SolutionCreate) (user_id : String)
        (new_id : String) (knn_enabled : Bool)
        (embed_outcome : Except String (List ℚ)) (es_index_ok db_compensate_ok : Bool)
        (nv : Option String) (qe : QuotaError),
        normalize_visibility payload.visibility = .ok nv →
        _enforce_api_key_limits st.db key_scope now = .error qe →
        save_solution st payload key_scope user_id now new_id knn_enabled
          embed_outcome es_index_ok db_compensate_ok = (.error (.quota qe), st)) := by
  refine ⟨?_, ?_, ?_, ?_, ?_⟩
  · intro hd hm
    unfold _enforce_api_key_limits
    rw [if_pos ⟨hd, hm⟩]
  · intro d hd hge
    unfold _enforce_api_key_limits
    rw [if_neg (by rw [hd]; rintro ⟨h, -⟩; cases h)]
    rw [hd]
    dsimp only
    rw [if_pos (by exact hge)]
  · intro m hd hm hge
    unfold _enforce_api_key_limits
    rw [if_neg (by rw [hd, hm]; rintro ⟨-, h⟩; cases h)]
    rw [hd]
    dsimp only
    rw [hm]
    dsimp only
    rw [if_pos (by exact hge)]
  · intro d m hd hm hlt hge
    unfold _enforce_api_key_limits
    rw [if_neg (by rw [hd]; rintro ⟨h, -⟩; cases h)]
    rw [hd]
    dsimp only
    rw [if_neg (Nat.not_le.mpr hlt)]
    rw [hm]
    dsimp only
    rw [if_pos (by exact hge)]
  · intro st payload user_id new_id knn eo esok dbok nv qe hn hq
    unfold save_solution
    rw [hn]
    dsimp only
    rw [hq]

theorem quota_enforcement_witness :
    (limitedScope.daily_limit = some 1
      ∧ 1 ≤ _count_solutions_since quotaState.db limitedScope.api_key_id (dayStart now₀)
      ∧ bothScope.daily_limit = some 5
      ∧ bothScope.monthly_limit = some 1
      ∧ _count_solutions_since quotaState.db bothScope.api_key_id (dayStart now₀) < 5
      ∧ 1 ≤ _count_solutions_since quotaState.db bothScope.api_key_id (monthStart now₀)
      ∧ normalize_visibility samplePayload.visibility = .ok none) ∧
    (_enforce_api_key_limits quotaState.db limitedScope now₀ = .error (.daily 1)
      ∧ _enforce_api_key_limits quotaState.db bothScope now₀ = .error (.monthly 1)
      ∧ save_solution quotaState samplePayload limitedScope "u1" now₀ "sid2" false
          (.error "x") true true = (.error (.quota (.daily 1)), quotaState)) :=
  ⟨⟨rfl, by decide, rfl, rfl, by decide, by decide, rfl⟩, by
    have hq := (quota_enforcement quotaState.db limitedScope now₀).2.1 1 rfl (by decide)
    have hqm := (quota_enforcement quotaState.db bothScope now₀).2.2.2.1 5 1 rfl rfl
      (by decide) (by decide)
    exact ⟨hq, hqm, (quota_enforcement quotaState.db limitedScope now₀).2.2.2.2 quotaState
      samplePayload "u1" "sid2" false (.error "x") true true none (.daily 1) rfl hq⟩⟩

/-- C8 (amended): when an allow-list is configured, any successfully resolved
target's host is on it; with no allow-list the loopback-only restriction is
applied only when a request-supplied override base is active
(`REMOTE_CONTEXT8_ALLOW_OVERRIDE` on and an override base present) — the
statically configured base is not restricted to loopback (see the
counterexample). -/
theorem remote_host_policy (env : RemoteEnv) (override_base override_key : Option String)
    (b k : String) :
    (resolve_remote_config env override_base override_key = .ok (b, k) →
      env.allowed_hosts ≠ [] →
      ∀ h, _host_from_base b = some h → h ∈ env.allowed_hosts)
    ∧ (resolve_remote_config env override_base override_key = .ok (b, k) →
      env.allowed_hosts = [] →
      (env.allow_override && strTruthy override_base) = true →
      ∀ h, _host_from_base b = some h → _is_local_host h = true) := by
  constructor
  · intro hok hlist h hfb
    unfold resolve_remote_config at hok
    dsimp only at hok
    split at hok
    · exact Except.noConfusion hok
    split at hok
    · exact Except.noConfusion hok
    split at hok
    · exact Except.noConfusion hok
    split at hok
    · exact Except.noConfusion hok
    rename_i base_host hhost
    split at hok
    · exact Except.noConfusion hok
    rename_i val hval
    injection hok with hpair
    have hb := congrArg Prod.fst hpair
    dsimp only at hb
    subst hb
    rw [hhost] at hfb
    injection hfb with hfb'
    subst hfb'
    unfold _validate_remote_host at hval
    split at hval
    · split at hval
      · assumption
      · exact Except.noConfusion hval
    · rename_i hfull
      simp at hfull
      exact absurd hfull hlist
  · intro hok hlist hact h hfb
    unfold resolve_remote_config at hok
    dsimp only at hok
    split at hok
    · exact Except.noConfusion hok
    split at hok
    · exact Except.noConfusion hok
    split at hok
    · exact Except.noConfusion hok
    split at hok
    · exact Except.noConfusion hok
    rename_i base_host hhost
    split at hok
    · exact Except.noConfusion hok
    rename_i val hval
    injection hok with hpair
    have hb := congrArg Prod.fst hpair
    dsimp only at hb
    subst hb
    rw [hhost] at hfb
    injection hfb with hfb'
    subst hfb'
    unfold _validate_remote_host at hval
    split at hval
    · rename_i hfull
      rw [hlist] at hfull
      simp at hfull
    · split at hval
      · exact Except.noConfusion hval
      · rename_i hloc
        rw [hact] at hloc
        simpa using hloc

/-- C8 counterexample: with no allow-list configured and no override in
play, the statically configured non-loopback base resolves successfully, so
"only a loopback host is permitted" does not hold for every federated
request. -/
theorem remote_host_policy_counterexample :
    resolve_remote_config remoteEnv₀ none none = .ok ("http://peer.internal:9000", "k")
    ∧ remoteEnv₀.allowed_hosts = []
    ∧ _host_from_base "http://peer.internal:9000" = some "peer.internal"
    ∧ _is_local_host "peer.internal" = false :=
  ⟨rfl, rfl, rfl, rfl⟩

theorem remote_host_policy_witness :
    (resolve_remote_config remoteEnv₁ none none = .ok ("https://peer.example", "k")
      ∧ remoteEnv₁.allowed_hosts ≠ []
      ∧ _host_from_base "https://peer.example" = some "peer.example") ∧
    "peer.example" ∈ remoteEnv₁.allowed_hosts :=
  ⟨⟨rfl, by decide, rfl⟩,
    (remote_host_policy remoteEnv₁ none none "https://peer.example" "k").1
      rfl (by decide) "peer.example" rfl⟩

/-- C9: with strict mode off, `embed_text` never propagates a provider
failure — it always returns a vector; when the provider call fails on
non-empty normalized content the result is exactly the deterministic
fallback (SHA-256 content hash seeding CPython's Mersenne Twister); and the
fallback — hence the whole failure-path result — depends only on the
normalized content, so identically-normalizing payloads get identical
vectors. -/
theorem embedding_fallback_determinism (dim : Nat) (api_url_set : Bool)
    (service : String → Except String (List ℚ)) (d1 d2 : EmbedPayload) :
    (∃ vec, embed_text dim api_url_set false service d1 = .ok vec)
    ∧ (∀ e, service (_normalize_payload d1) = .error e →
        (_normalize_payload d1).isEmpty = false →
        embed_text dim true false service d1
          = .ok (_fallback_embedding dim (_normalize_payload d1)))
    ∧ (_normalize_payload d1 = _normalize_payload d2 →
        _fallback_embedding dim (_normalize_payload d1)
            = _fallback_embedding dim (_normalize_payload d2)
          ∧ embed_text dim api_url_set false service d1
            = embed_text dim api_url_set false service d2) := by
  refine ⟨?_, ?_, ?_⟩
  · unfold embed_text
    by_cases hempty : (_normalize_payload d1).isEmpty
    · exact ⟨List.replicate dim 0, by rw [if_pos hempty]⟩
    · rw [if_neg hempty]
      cases api_url_set
      · exact ⟨_fallback_embedding dim (_normalize_payload d1), by rw [if_neg (by simp)]⟩
      · rw [if_pos rfl]
        cases hs : service (_normalize_payload d1) with
        | ok vec => exact ⟨vec, rfl⟩
        | error e =>
          exact ⟨_fallback_embedding dim (_normalize_payload d1), by simp⟩
  · intro e hs hnonempty
    unfold embed_text
    rw [if_neg (by rw [hnonempty]; exact Bool.false_ne_true)]
    rw [if_pos rfl, hs]
    simp
  · intro hn
    exact ⟨by rw [hn], by unfold embed_text; rw [hn]⟩

theorem embedding_fallback_determinism_witness :
    ((fun _ => Except.error "service down" : String → Except String (List ℚ))
        (_normalize_payload payloadA) = .error "service down"
      ∧ (_normalize_payload payloadA).isEmpty = false
      ∧ _normalize_payload payloadA = _normalize_payload payloadB) ∧
    (embed_text 4 true false (fun _ => Except.error "service down") payloadA
        = .ok (_fallback_embedding 4 (_normalize_payload payloadA))
      ∧ _fallback_embedding 4 (_normalize_payload payloadA)
        = _fallback_embedding 4 (_normalize_payload payloadB)) :=
  ⟨⟨rfl, by decide, by decide⟩,
    ⟨(embedding_fallback_determinism 4 true (fun _ => Except.error "service down")
        payloadA payloadB).2.1 "service down" rfl (by decide),
      ((embedding_fallback_determinism 4 true (fun _ => Except.error "service down")
        payloadA payloadB).2.2 (by decide)).1⟩⟩

/-- C10: `_normalize_permissions` only ever returns flag pairs satisfying
the invariant (write implies read, not both off); an explicit
read=false/write=false request is rejected with the 400 validation error
and — the flows being pure — nothing is stored; write=true/read=false is
coerced to read=true; every sub key stored by the create flow satisfies the
invariant, and the update flow preserves it. -/
theorem subkey_permission_invariant :
    (∀ cr cw r w, _normalize_permissions cr cw = .ok (r, w) → permInvariant r w)
    ∧ _normalize_permissions (some false) (some false)
      = .error "At least one permission must be enabled"
    ∧ (∀ parent payload admin_user_id sub_id,
        payload.canRead = some false → payload.canWrite = some false →
        ∃ e, create_sub_api_key parent payload admin_user_id sub_id = .error e)
    ∧ (∀ parent payload admin_user_id sub_id rec,
        create_sub_api_key parent payload admin_user_id sub_id = .ok rec →
        permInvariant rec.can_read rec.can_write)
    ∧ (∀ parent payload admin_user_id sub_id rec,
        payload.canWrite = some true → payload.canRead = some false →
        create_sub_api_key parent payload admin_user_id sub_id = .ok rec →
        rec.can_read = true ∧ rec.can_write = true)
    ∧ (∀ item payload rec, permInvariant item.can_read item.can_write →
        update_sub_api_key item payload = .ok rec →
        permInvariant rec.can_read rec.can_write) := by
  have hnorm : ∀ cr cw r w, _normalize_permissions cr cw = .ok (r, w) →
      permInvariant r w := by
    intro cr cw r w hok
    unfold _normalize_permissions at hok
    dsimp only at hok
    cases hcr : cr.getD true <;> cases hcw : cw.getD true <;>
      rw [hcr, hcw] at hok <;> simp_all [permInvariant]
  refine ⟨hnorm, rfl, ?_, ?_, ?_, ?_⟩
  · intro parent payload admin_user_id sub_id hr hw
    unfold create_sub_api_key
    by_cases hname : (pyStrip payload.name).isEmpty
    · exact ⟨"name is required", by rw [if_pos hname]⟩
    rw [if_neg hname]
    cases parent with
    | none => exact ⟨"Parent API key not found", rfl⟩
    | some p =>
      dsimp only
      by_cases hrev : p.revoked = true
      · exact ⟨"Parent API key not found", by rw [if_pos hrev]⟩
      rw [if_neg hrev]
      rw [show _normalize_permissions payload.canRead payload.canWrite
          = .error "At least one permission must be enabled" from by
        rw [hr, hw]; rfl]
      exact ⟨"At least one permission must be enabled", rfl⟩
  · intro parent payload admin_user_id sub_id rec hok
    unfold create_sub_api_key at hok
    split at hok
    · exact Except.noConfusion hok
    split at hok
    · exact Except.noConfusion hok
    rename_i p
    split at hok
    · exact Except.noConfusion hok
    split at hok
    · exact Except.noConfusion hok
    rename_i rw_ hperm
    injection hok with hrec
    subst hrec
    exact hnorm payload.canRead payload.canWrite rw_.1 rw_.2 (by rw [hperm])
  · intro parent payload admin_user_id sub_id rec hw hr hok
    unfold create_sub_api_key at hok
    split at hok
    · exact Except.noConfusion hok
    split at hok
    · exact Except.noConfusion hok
    rename_i p
    split at hok
    · exact Except.noConfusion hok
    rw [hr, hw] at hok
    rw [show _normalize_permissions (some false) (some true) = .ok (true, true) from rfl]
      at hok
    injection hok with hrec
    subst hrec
    exact ⟨rfl, rfl⟩
  · intro item payload rec hinv hok
    unfold update_sub_api_key at hok
    split at hok
    · exact Except.noConfusion hok
    rename_i item1 hitem1
    split at hok
    · exact Except.noConfusion hok
    rename_i item2 hitem2
    injection hok with hrec
    subst hrec
    have hperm1 : permInvariant item1.can_read item1.can_write := by
      unfold _update_name at hitem1
      split at hitem1
      · rename_i n
        split at hitem1
        · exact Except.noConfusion hitem1
        · injection hitem1 with h1
          subst h1
          exact hinv
      · injection hitem1 with h1
        subst h1
        exact hinv
    have hperm2 : permInvariant item2.can_read item2.can_write := by
      unfold _update_perms at hitem2
      split at hitem2
      · split at hitem2
        · exact Except.noConfusion hitem2
        · rename_i rw_ hperm
          injection hitem2 with h2
          subst h2
          exact hnorm _ _ rw_.1 rw_.2 (by rw [hperm])
      · injection hitem2 with h2
        subst h2
        exact hperm1
    cases hd : payload.dailySet <;> cases hm : payload.monthlySet <;>
      simp only [hd, hm, if_true, if_false, permInvariant] at hperm2 ⊢ <;> exact hperm2

theorem subkey_permission_invariant_witness :
    (subPayloadWC.canWrite = some true ∧ subPayloadWC.canRead = some false
      ∧ create_sub_api_key (some parentKey) subPayloadWC "u1" "sk9" = .ok subRecWC) ∧
    (subRecWC.can_read = true ∧ subRecWC.can_write = true) :=
  ⟨⟨rfl, rfl, rfl⟩,
    subkey_permission_invariant.2.2.2.2.1 (some parentKey) subPayloadWC "u1" "sk9"
      subRecWC rfl rfl rfl⟩

end Context8
